import Mathlib

/-!
Verification of the incremental-update and remediation subsystem of the
`tp_datawarehousing` ETL pipeline.

The development shallowly embeds the SQL/Python logic of

* `steps/step_09_update_dwh_with_ingesta2.py`
  (`update_scd2_clientes_transaction`, `update_fact_ventas_transaction`),
* `data_remediation_utils.py`
  (`fix_scd2_temporal_logic`, `resolve_missing_regions`,
   `handle_missing_shipping_data`, `advanced_geographic_remediation`,
   `advanced_contact_data_remediation`, `world_data_enrichment_remediation`),
* `quality_utils.py` (`execute_with_retry`)

as pure functions over list-valued tables.  SQLite `TEXT` columns become
`Option String` (NULL = `none`), `DATE` columns become a calendar-date
structure compared the way ISO-8601 strings compare, `REAL` columns become
`Rat`, and the per-connection transaction/rollback discipline of the
remediation module becomes explicit `Except` threading of a committed state.

Modelling conventions, used throughout and noted at each definition:

* scalar subqueries and joins on primary-key columns are modelled with
  `List.find?` (the first matching row); theorems that depend on the lookup
  being unambiguous carry the corresponding key-uniqueness hypotheses, which
  hold in the pipeline because the joined columns are declared `PRIMARY KEY`
  (`TMP2_customers.customer_id`, `TMP2_orders.order_id`,
  `DWA_DIM_*` surrogate keys);
* table-level DDL constraint enforcement (schema creation is outside the
  subsystem under specification) is not modelled;
* metric logging writes to the DQM tables only, which are not part of the
  modelled data state; a metric call is therefore modelled by its control
  effect alone (in `data_remediation_utils` every in-transaction call passes
  a `conn` keyword that the imported `log_quality_metric` does not accept,
  so the call raises `TypeError`; see `logQualityMetricCall`).
-/

/-- Calendar date, the model of the ISO-8601 `YYYY-MM-DD` strings stored in
`DATE` columns.  `key` linearises a date exactly the way lexicographic
comparison of zero-padded ISO strings orders them, which is how SQLite
compares the stored `TEXT` values. -/
structure Date where
  year : Nat
  month : Nat
  day : Nat
deriving DecidableEq, Repr

/-- Linearisation of a date; for dates with `month, day < 100` and
`year < 10000` this agrees with the lexicographic order of the ISO string. -/
def Date.key (d : Date) : Nat :=
  d.year * 10000 + d.month * 100 + d.day

/-- Number of days of a month, with the Gregorian leap rule, as used by
Python's `datetime` arithmetic. -/
def daysInMonth (y m : Nat) : Nat :=
  if m = 2 then (if (y % 4 = 0 && y % 100 != 0) || y % 400 = 0 then 29 else 28)
  else if m = 4 || m = 6 || m = 9 || m = 11 then 30 else 31

/-- Model of Python's `date + timedelta(days=1)`. -/
def Date.nextDay (d : Date) : Date :=
  if d.day < daysInMonth d.year d.month then ⟨d.year, d.month, d.day + 1⟩
  else if d.month < 12 then ⟨d.year, d.month + 1, 1⟩
  else ⟨d.year + 1, 1, 1⟩

/-- Model of Python's `date - timedelta(days=1)`. -/
def Date.prevDay (d : Date) : Date :=
  if 1 < d.day then ⟨d.year, d.month, d.day - 1⟩
  else if 1 < d.month then ⟨d.year, d.month - 1, daysInMonth d.year (d.month - 1)⟩
  else ⟨d.year - 1, 12, 31⟩

/-- SQL `COALESCE(x, '')`, the null-safe projection both sides of every
attribute comparison of the SCD2 change query are wrapped in. -/
def coalesce (s : Option String) : String :=
  s.getD ""

/-- Row of the `TMP2_customers` delta staging table
(`step_08_load_ingesta2_to_staging.py`; `customer_id` is its
`TEXT PRIMARY KEY`, every other column is nullable). -/
structure Tmp2Customer where
  customer_id : String
  company_name : Option String
  contact_name : Option String
  contact_title : Option String
  address : Option String
  city : Option String
  region : Option String
  postal_code : Option String
  country : Option String
deriving DecidableEq, Repr

/-- Row of the `DWA_DIM_Clientes` SCD2 dimension
(`step_05_create_dwh_model.py`: `sk_cliente INTEGER PRIMARY KEY`,
`nk_cliente_id TEXT NOT NULL`, nullable descriptive attributes,
`fecha_inicio_validez DATE NOT NULL`, `fecha_fin_validez DATE`,
`es_vigente INTEGER` holding 0/1). -/
structure ClienteRow where
  sk : Nat
  nk : String
  nombre_compania : Option String
  nombre_contacto : Option String
  titulo_contacto : Option String
  direccion : Option String
  ciudad : Option String
  region : Option String
  codigo_postal : Option String
  pais : Option String
  fecha_inicio : Date
  fecha_fin : Option Date
  es_vigente : Bool
deriving DecidableEq, Repr

/-- The change test of `query_changed_customers` in
`update_scd2_clientes_transaction` (step_09, lines 64-72): the seven tracked
attributes are compared with `COALESCE(x,'') != COALESCE(y,'')`.
`company_name` is not among the compared attributes. -/
def trackedDiff (d : ClienteRow) (t : Tmp2Customer) : Bool :=
  (coalesce d.direccion != coalesce t.address) ||
  (coalesce d.ciudad != coalesce t.city) ||
  (coalesce d.region != coalesce t.region) ||
  (coalesce d.codigo_postal != coalesce t.postal_code) ||
  (coalesce d.pais != coalesce t.country) ||
  (coalesce d.nombre_contacto != coalesce t.contact_name) ||
  (coalesce d.titulo_contacto != coalesce t.contact_title)

/-- Result rows of `query_changed_customers` (step_09, lines 50-75): the join
of the delta with the currently valid dimension rows that differ on a tracked
attribute, keeping the matched row's surrogate key and the delta attributes. -/
def changedPairs (dim : List ClienteRow) (tmp2 : List Tmp2Customer) :
    List (Nat × Tmp2Customer) :=
  tmp2.flatMap (fun t =>
    (dim.filter (fun d => d.es_vigente && d.nk == t.customer_id && trackedDiff d t)).map
      (fun d => (d.sk, t)))

/-- The new dimension version inserted for a delta row (step_09, lines 97-125
and 143-172): delta attributes, `fecha_inicio_validez = today`,
`fecha_fin_validez = NULL`, `es_vigente = 1`; `sk` is the
`AUTOINCREMENT`-assigned surrogate key. -/
def newVersion (t : Tmp2Customer) (sk : Nat) (today : Date) : ClienteRow :=
  { sk := sk
    nk := t.customer_id
    nombre_compania := t.company_name
    nombre_contacto := t.contact_name
    titulo_contacto := t.contact_title
    direccion := t.address
    ciudad := t.city
    region := t.region
    codigo_postal := t.postal_code
    pais := t.country
    fecha_inicio := today
    fecha_fin := none
    es_vigente := true }

/-- Largest surrogate key present in the dimension (0 when empty); used to
model `AUTOINCREMENT`, which hands out keys strictly larger than any key
already used. -/
def maxSk (dim : List ClienteRow) : Nat :=
  (dim.map (fun d => d.sk)).foldr Nat.max 0

/-- Batch insert of new dimension versions, one fresh consecutive surrogate
key per row starting at `base` (models the `executemany` inserts together
with `AUTOINCREMENT` key assignment). -/
def assignSks (base : Nat) (ts : List Tmp2Customer) (today : Date) : List ClienteRow :=
  match ts with
  | [] => []
  | t :: rest => newVersion t base today :: assignSks (base + 1) rest today

/-- The `UPDATE ... SET fecha_fin_validez = yesterday, es_vigente = 0
WHERE sk_cliente IN (...)` pass of step_09 (lines 85-92) applied to the
dimension, expiring exactly the surrogate keys collected from the change
query. -/
def expirePass (dim : List ClienteRow) (sks : List Nat) (today : Date) :
    List ClienteRow :=
  dim.map (fun d =>
    if sks.contains d.sk then
      { d with fecha_fin := some today.prevDay, es_vigente := false }
    else d)

/-- Dimension state after the changed-customer half of
`update_scd2_clientes_transaction`: expire the joined current rows, then
insert one new current version per change-query result row. -/
def dimAfterChanged (dim : List ClienteRow) (tmp2 : List Tmp2Customer) (today : Date) :
    List ClienteRow :=
  let pairs := changedPairs dim tmp2
  expirePass dim (pairs.map (fun p => p.1)) today ++
    assignSks (maxSk dim + 1) (pairs.map (fun p => p.2)) today

/-- Result rows of `query_new_customers` (step_09, lines 132-141): delta rows
whose natural key has no dimension row at all.  The query executes after the
changed-customer inserts, so the `NOT EXISTS` test runs against
`dimAfterChanged`. -/
def newCustomers (dim : List ClienteRow) (tmp2 : List Tmp2Customer) (today : Date) :
    List Tmp2Customer :=
  tmp2.filter (fun t =>
    !((dimAfterChanged dim tmp2 today).any (fun d => d.nk == t.customer_id)))

/-- Full data effect of `update_scd2_clientes_transaction` (step_09,
lines 41-197) on `DWA_DIM_Clientes`: expire + re-insert every changed key,
then insert every brand-new key as a fresh current row. -/
def update_scd2_clientes (dim : List ClienteRow) (tmp2 : List Tmp2Customer)
    (today : Date) : List ClienteRow :=
  let dim2 := dimAfterChanged dim tmp2 today
  dim2 ++ assignSks (maxSk dim2 + 1) (newCustomers dim tmp2 today) today

/-- Number of rows of natural key `k` that carry the current flag. -/
def currentCount (dim : List ClienteRow) (k : String) : Nat :=
  dim.countP (fun d => d.nk == k && d.es_vigente)

/-- Natural key `k` owns at least one row of the dimension. -/
def hasKey (dim : List ClienteRow) (k : String) : Prop :=
  ∃ d ∈ dim, d.nk = k

/-- The SCD2 invariant: every natural key present in the dimension has
exactly one current row. -/
def scd2Inv (dim : List ClienteRow) : Prop :=
  ∀ k, hasKey dim k → currentCount dim k = 1

theorem mem_changedPairs {dim : List ClienteRow} {tmp2 : List Tmp2Customer}
    {s : Nat} {t : Tmp2Customer} :
    (s, t) ∈ changedPairs dim tmp2 ↔
      t ∈ tmp2 ∧ ∃ d ∈ dim, d.es_vigente = true ∧ d.nk = t.customer_id ∧
        trackedDiff d t = true ∧ d.sk = s := by
  constructor
  · intro h
    rcases List.mem_flatMap.mp h with ⟨t', ht', hmem⟩
    rcases List.mem_map.mp hmem with ⟨d, hd, heq⟩
    rcases List.mem_filter.mp hd with ⟨hdim, hpred⟩
    injection heq with h1 h2
    subst h1; subst h2
    simp only [Bool.and_eq_true, beq_iff_eq] at hpred
    exact ⟨ht', d, hdim, hpred.1.1, hpred.1.2, hpred.2, rfl⟩
  · rintro ⟨ht, d, hd, hvig, hnk, hdiff, hsk⟩
    refine List.mem_flatMap.mpr ⟨t, ht, ?_⟩
    refine List.mem_map.mpr ⟨d, List.mem_filter.mpr ⟨hd, ?_⟩, by rw [hsk]⟩
    simp [hvig, hnk, hdiff]

theorem currentCount_append (l₁ l₂ : List ClienteRow) (k : String) :
    currentCount (l₁ ++ l₂) k = currentCount l₁ k + currentCount l₂ k :=
  List.countP_append ..

theorem currentCount_assignSks (b : Nat) (ts : List Tmp2Customer) (today : Date)
    (k : String) :
    currentCount (assignSks b ts today) k = ts.countP (fun t => t.customer_id == k) := by
  induction ts generalizing b with
  | nil => rfl
  | cons t rest ih =>
      simp only [assignSks, currentCount, List.countP_cons] at *
      rw [ih (b + 1)]
      simp [newVersion]

theorem currentCount_expirePass (dim : List ClienteRow) (sks : List Nat)
    (today : Date) (k : String) :
    currentCount (expirePass dim sks today) k =
      dim.countP (fun d => d.nk == k && d.es_vigente && !(sks.contains d.sk)) := by
  unfold currentCount expirePass
  rw [List.countP_map]
  apply List.countP_congr
  intro d _
  by_cases hmem : d.sk ∈ sks
  · simp [Function.comp, hmem]
  · simp [Function.comp, hmem]

theorem countP_le_one_of_nodup_map {α β : Type} [DecidableEq β]
    (f : α → β) (l : List α) (h : (l.map f).Nodup) (k : β) :
    l.countP (fun a => f a == k) ≤ 1 := by
  induction l with
  | nil => simp
  | cons a as ih =>
      simp only [List.map_cons, List.nodup_cons] at h
      rw [List.countP_cons]
      by_cases ha : f a = k
      · have hz : as.countP (fun b => f b == k) = 0 := by
          apply List.countP_eq_zero.mpr
          intro b hb hbk
          simp only [beq_iff_eq] at hbk
          apply h.1
          rw [ha, ← hbk]
          exact List.mem_map_of_mem f hb
        simp [hz, ha]
      · have hf : ((fun a => f a == k) a) = false := by simp [ha]
        simp only [hf, if_false, Nat.add_zero]
        exact ih h.2

theorem sk_ge_of_mem_assignSks {b : Nat} {ts : List Tmp2Customer} {today : Date}
    {r : ClienteRow} (h : r ∈ assignSks b ts today) : b ≤ r.sk := by
  induction ts generalizing b with
  | nil => cases h
  | cons t rest ih =>
      simp only [assignSks] at h
      rcases List.mem_cons.mp h with h | h
      · simp [h, newVersion]
      · exact Nat.le_of_succ_le (ih h)

theorem sk_le_maxSk {dim : List ClienteRow} {d : ClienteRow} (h : d ∈ dim) :
    d.sk ≤ maxSk dim := by
  induction dim with
  | nil => cases h
  | cons a as ih =>
      rcases List.mem_cons.mp h with h | h
      · simp only [maxSk, List.map_cons, List.foldr_cons, h]
        exact Nat.le_max_left _ _
      · simp only [maxSk, List.map_cons, List.foldr_cons]
        exact Nat.le_trans (ih h) (Nat.le_max_right _ _)

theorem mem_assignSks {b : Nat} {ts : List Tmp2Customer} {today : Date}
    {r : ClienteRow} (h : r ∈ assignSks b ts today) :
    ∃ t ∈ ts, ∃ s, r = newVersion t s today := by
  induction ts generalizing b with
  | nil => cases h
  | cons t rest ih =>
      simp only [assignSks] at h
      rcases List.mem_cons.mp h with h | h
      · exact ⟨t, List.mem_cons_self .., b, h⟩
      · rcases ih h with ⟨t', ht', s, hs⟩
        exact ⟨t', List.mem_cons_of_mem _ ht', s, hs⟩

theorem assignSks_mem_of_mem {ts : List Tmp2Customer} {t : Tmp2Customer}
    (h : t ∈ ts) (b : Nat) (today : Date) :
    ∃ s, newVersion t s today ∈ assignSks b ts today := by
  induction ts generalizing b with
  | nil => cases h
  | cons t' rest ih =>
      rcases List.mem_cons.mp h with h | h
      · exact ⟨b, by simp [assignSks, h]⟩
      · rcases ih h (b + 1) with ⟨s, hs⟩
        exact ⟨s, by simp only [assignSks]; exact List.mem_cons_of_mem _ hs⟩

theorem nk_of_mem_expirePass {dim : List ClienteRow} {sks : List Nat} {today : Date}
    {r : ClienteRow} (h : r ∈ expirePass dim sks today) : ∃ d ∈ dim, r.nk = d.nk := by
  rcases List.mem_map.mp h with ⟨d, hd, heq⟩
  refine ⟨d, hd, ?_⟩
  rw [← heq]
  by_cases hc : d.sk ∈ sks <;> simp [hc]

theorem currentCount_le_one (dim : List ClienteRow) (hinv : scd2Inv dim) (k : String) :
    currentCount dim k ≤ 1 := by
  by_cases h : hasKey dim k
  · exact le_of_eq (hinv k h)
  · have hz : currentCount dim k = 0 := by
      apply List.countP_eq_zero.mpr
      intro d hd hp
      simp only [Bool.and_eq_true, beq_iff_eq] at hp
      exact absurd ⟨d, hd, hp.1⟩ h
    simp [hz]

theorem current_row_unique {dim : List ClienteRow} {k : String}
    (h1 : currentCount dim k = 1) :
    ∃ u ∈ dim, u.nk = k ∧ u.es_vigente = true ∧
      ∀ d ∈ dim, d.nk = k → d.es_vigente = true → d = u := by
  have hlen := h1
  rw [currentCount, List.countP_eq_length_filter] at hlen
  rcases List.length_eq_one.mp hlen with ⟨u, hu⟩
  have humem : u ∈ dim.filter (fun d => d.nk == k && d.es_vigente) := by
    rw [hu]; exact List.mem_singleton.mpr rfl
  rcases List.mem_filter.mp humem with ⟨hud, hup⟩
  simp only [Bool.and_eq_true, beq_iff_eq] at hup
  refine ⟨u, hud, hup.1, hup.2, ?_⟩
  intro d hd hnk hvig
  have hmem : d ∈ dim.filter (fun d => d.nk == k && d.es_vigente) :=
    List.mem_filter.mpr ⟨hd, by simp [hnk, hvig]⟩
  rw [hu] at hmem
  exact List.mem_singleton.mp hmem

/-- Natural key `k` is classified as changed by the reconciler: a current
dimension row exists for it and differs from the delta on a tracked
attribute. -/
def isChangedKey (dim : List ClienteRow) (tmp2 : List Tmp2Customer) (k : String) : Prop :=
  ∃ t ∈ tmp2, t.customer_id = k ∧
    ∃ d ∈ dim, d.es_vigente = true ∧ d.nk = k ∧ trackedDiff d t = true

theorem countP_changedPairs_le_one (dim : List ClienteRow) (tmp2 : List Tmp2Customer)
    (k : String) (hcc : dim.countP (fun d => d.nk == k && d.es_vigente) ≤ 1)
    (hids : (tmp2.map (fun t => t.customer_id)).Nodup) :
    (changedPairs dim tmp2).countP (fun p => p.2.customer_id == k) ≤ 1 := by
  induction tmp2 with
  | nil => simp [changedPairs]
  | cons t rest ih =>
      simp only [List.map_cons, List.nodup_cons] at hids
      have hsplit : changedPairs dim (t :: rest) =
          ((dim.filter
              (fun d => d.es_vigente && d.nk == t.customer_id && trackedDiff d t)).map
            (fun d => (d.sk, t))) ++ changedPairs dim rest := by
        simp [changedPairs]
      rw [hsplit, List.countP_append]
      by_cases hk : t.customer_id = k
      · have hrest : (changedPairs dim rest).countP (fun p => p.2.customer_id == k) = 0 := by
          apply List.countP_eq_zero.mpr
          rintro ⟨s, t'⟩ hmem hp
          simp only [beq_iff_eq] at hp
          rcases mem_changedPairs.mp hmem with ⟨ht', _⟩
          apply hids.1
          rw [hk, ← hp]
          exact List.mem_map_of_mem _ ht'
        have hhead :
            ((dim.filter
                (fun d => d.es_vigente && d.nk == t.customer_id && trackedDiff d t)).map
              (fun d => (d.sk, t))).countP (fun p => p.2.customer_id == k) ≤ 1 := by
          rw [List.countP_map]
          have heq :
              (dim.filter
                (fun d => d.es_vigente && d.nk == t.customer_id && trackedDiff d t)).countP
                ((fun p : Nat × Tmp2Customer => p.2.customer_id == k) ∘ (fun d => (d.sk, t)))
              = (dim.filter
                (fun d => d.es_vigente && d.nk == t.customer_id && trackedDiff d t)).length := by
            rw [← List.countP_true]
            apply List.countP_congr
            intro d _
            simp [Function.comp, hk]
          rw [heq, ← List.countP_eq_length_filter]
          calc dim.countP (fun d => d.es_vigente && d.nk == t.customer_id && trackedDiff d t)
              ≤ dim.countP (fun d => d.nk == k && d.es_vigente) := by
                apply List.countP_mono_left
                intro d _ hp
                simp only [Bool.and_eq_true, beq_iff_eq] at hp
                simp [hp.1.2, hk, hp.1.1]
            _ ≤ 1 := hcc
        omega
      · have hhead :
            ((dim.filter
                (fun d => d.es_vigente && d.nk == t.customer_id && trackedDiff d t)).map
              (fun d => (d.sk, t))).countP (fun p => p.2.customer_id == k) = 0 := by
          apply List.countP_eq_zero.mpr
          intro p hp hpk
          rcases List.mem_map.mp hp with ⟨d, _, heq⟩
          simp only [beq_iff_eq] at hpk
          rw [← heq] at hpk
          exact hk hpk
        rw [hhead]
        simpa using ih hids.2

/-- C1: for every natural key of the customer dimension, after an SCD2
reconciliation run over a delta with distinct natural keys — whether the key
appeared in the delta (changed, unchanged or new) or was left untouched — the
number of dimension rows carrying the current flag for that key is exactly 1:
never 0 and never 2 or more.  Hypotheses: surrogate keys are unique (the
`sk_cliente INTEGER PRIMARY KEY` declaration), delta natural keys are unique
(the `customer_id TEXT PRIMARY KEY` declaration of `TMP2_customers`), and the
invariant held before the run. -/
theorem c1_scd2_current_flag_unique
    (dim : List ClienteRow) (tmp2 : List Tmp2Customer) (today : Date)
    (hsk : (dim.map (fun d => d.sk)).Nodup)
    (hids : (tmp2.map (fun t => t.customer_id)).Nodup)
    (hinv : scd2Inv dim) :
    scd2Inv (update_scd2_clientes dim tmp2 today) := by
  intro K hK
  set pairs := changedPairs dim tmp2 with hpairs
  set sks := pairs.map (fun p => p.1) with hsks
  set dim1 := expirePass dim sks today with hdim1
  set ins1 := assignSks (maxSk dim + 1) (pairs.map (fun p => p.2)) today with hins1
  set dim2 := dimAfterChanged dim tmp2 today with hdim2
  set newcs := newCustomers dim tmp2 today with hnewcs
  set ins2 := assignSks (maxSk dim2 + 1) newcs today with hins2
  have hposteq : update_scd2_clientes dim tmp2 today = dim1 ++ ins1 ++ ins2 := rfl
  have hsum : currentCount (update_scd2_clientes dim tmp2 today) K =
      currentCount dim1 K + currentCount ins1 K + currentCount ins2 K := by
    rw [hposteq, currentCount_append, currentCount_append]
  have hA : currentCount dim1 K =
      dim.countP (fun d => d.nk == K && d.es_vigente && !(sks.contains d.sk)) :=
    currentCount_expirePass ..
  have hB : currentCount ins1 K = pairs.countP (fun p => p.2.customer_id == K) := by
    rw [hins1, currentCount_assignSks, List.countP_map]
    rfl
  have hC : currentCount ins2 K = newcs.countP (fun t => t.customer_id == K) :=
    currentCount_assignSks ..
  have hdim2row : hasKey dim K → ∃ r ∈ dim2, r.nk = K := by
    rintro ⟨d, hd, hnk⟩
    have himg : ∃ r ∈ dim1, r.nk = d.nk := by
      refine ⟨_, List.mem_map_of_mem _ hd, ?_⟩
      by_cases hc : d.sk ∈ sks <;> simp [hc]
    rcases himg with ⟨r, hr, hrk⟩
    exact ⟨r, List.mem_append_left _ hr, by rw [hrk, hnk]⟩
  have hC0 : hasKey dim K → newcs.countP (fun t => t.customer_id == K) = 0 := by
    intro hkey
    apply List.countP_eq_zero.mpr
    intro t ht hp
    simp only [beq_iff_eq] at hp
    rcases List.mem_filter.mp ht with ⟨_, hcond⟩
    rcases hdim2row hkey with ⟨r, hr, hrk⟩
    simp only [Bool.not_eq_true', List.any_eq_false] at hcond
    exact absurd (by simp [hrk, hp] : (r.nk == t.customer_id) = true)
      (by simpa using hcond r hr)
  by_cases hck : isChangedKey dim tmp2 K
  · obtain ⟨t, ht, htk, d0, hd0, hvig0, hnk0, hdiff0⟩ := hck
    have hkey : hasKey dim K := ⟨d0, hd0, hnk0⟩
    obtain ⟨u, hu, hunk, huvig, huniq⟩ := current_row_unique (hinv K hkey)
    have hd0u : d0 = u := huniq d0 hd0 hnk0 hvig0
    have hpairmem : (u.sk, t) ∈ pairs := by
      apply mem_changedPairs.mpr
      refine ⟨ht, u, hu, huvig, by rw [hunk, htk], ?_, rfl⟩
      rw [← hd0u]; exact hdiff0
    have hskmem : u.sk ∈ sks := by
      rw [hsks]; exact List.mem_map_of_mem _ hpairmem
    have hA0 : dim.countP (fun d => d.nk == K && d.es_vigente && !(sks.contains d.sk)) = 0 := by
      apply List.countP_eq_zero.mpr
      intro d hd hp
      simp only [Bool.and_eq_true, Bool.not_eq_true', beq_iff_eq] at hp
      have hdu : d = u := huniq d hd hp.1.1 hp.1.2
      rw [hdu] at hp
      have hcont : sks.contains u.sk = true := by simp [hskmem]
      rw [hp.2] at hcont
      exact Bool.noConfusion hcont
    have hBle : pairs.countP (fun p => p.2.customer_id == K) ≤ 1 :=
      countP_changedPairs_le_one dim tmp2 K (currentCount_le_one dim hinv K) hids
    have hBpos : 0 < pairs.countP (fun p => p.2.customer_id == K) :=
      List.countP_pos_iff.mpr ⟨(u.sk, t), hpairmem, by simp [htk]⟩
    have hB1 : pairs.countP (fun p => p.2.customer_id == K) = 1 :=
      Nat.le_antisymm hBle hBpos
    rw [hsum, hA, hB, hC, hA0, hB1, hC0 hkey]
  · by_cases hkey : hasKey dim K
    · have hA1 : dim.countP (fun d => d.nk == K && d.es_vigente && !(sks.contains d.sk)) =
          currentCount dim K := by
        apply List.countP_congr
        intro d hd
        by_cases hdp : d.nk = K ∧ d.es_vigente = true
        · have hnotin : d.sk ∉ sks := by
            intro hmem
            rw [hsks] at hmem
            rcases List.mem_map.mp hmem with ⟨p, hp, hpsk⟩
            rcases p with ⟨s, t'⟩
            rcases mem_changedPairs.mp hp with ⟨ht', d', hd', hvig', hnk', hdiff', hsk'⟩
            have hdd : d' = d := List.inj_on_of_nodup_map hsk hd' hd (by rw [hsk']; exact hpsk)
            refine hck ⟨t', ht', ?_, d, hd, hdp.2, hdp.1, ?_⟩
            · rw [← hnk', hdd, hdp.1]
            · rw [← hdd]; exact hdiff'
          simp [hdp.1, hdp.2, hnotin]
        · rcases not_and_or.mp hdp with h | h
          · simp [h]
          · simp only [Bool.not_eq_true] at h
            simp [h]
      have hB0 : pairs.countP (fun p => p.2.customer_id == K) = 0 := by
        apply List.countP_eq_zero.mpr
        rintro ⟨s, t'⟩ hp hpk
        simp only [beq_iff_eq] at hpk
        rcases mem_changedPairs.mp hp with ⟨ht', d', hd', hvig', hnk', hdiff', _⟩
        exact hck ⟨t', ht', hpk, d', hd', hvig', by rw [hnk', hpk], hdiff'⟩
      rw [hsum, hA, hB, hC, hA1, hinv K hkey, hB0, hC0 hkey]
    · have hfrom : ∃ t ∈ tmp2, t.customer_id = K := by
        rcases hK with ⟨r, hr, hrk⟩
        rw [hposteq] at hr
        rcases List.mem_append.mp hr with hr12 | hr2
        · rcases List.mem_append.mp hr12 with hr1 | hr1
          · rcases nk_of_mem_expirePass hr1 with ⟨d, hd, hnk⟩
            exact absurd ⟨d, hd, by rw [← hnk, hrk]⟩ hkey
          · rcases mem_assignSks hr1 with ⟨t', ht', s, hs⟩
            rcases List.mem_map.mp ht' with ⟨p, hp, hpt⟩
            rcases p with ⟨s2, t2⟩
            rcases mem_changedPairs.mp hp with ⟨ht2, _, _, _, _, _, _⟩
            refine ⟨t2, ht2, ?_⟩
            have hrnk : r.nk = t'.customer_id := by rw [hs]; rfl
            have hpt2 : t2 = t' := hpt
            rw [hpt2, ← hrnk]
            exact hrk
        · rcases mem_assignSks hr2 with ⟨t', ht', s, hs⟩
          refine ⟨t', List.mem_of_mem_filter ht', ?_⟩
          have : r.nk = t'.customer_id := by rw [hs]; rfl
          rw [← hrk, this]
      obtain ⟨t, ht, htk⟩ := hfrom
      have hA0 : dim.countP (fun d => d.nk == K && d.es_vigente && !(sks.contains d.sk)) = 0 := by
        apply List.countP_eq_zero.mpr
        intro d hd hp
        simp only [Bool.and_eq_true, beq_iff_eq] at hp
        exact absurd ⟨d, hd, hp.1.1⟩ hkey
      have hB0 : pairs.countP (fun p => p.2.customer_id == K) = 0 := by
        apply List.countP_eq_zero.mpr
        rintro ⟨s, t'⟩ hp hpk
        simp only [beq_iff_eq] at hpk
        rcases mem_changedPairs.mp hp with ⟨ht', d', hd', hvig', hnk', hdiff', _⟩
        exact absurd ⟨d', hd', by rw [hnk', hpk]⟩ hkey
      have hCle : newcs.countP (fun t => t.customer_id == K) ≤ 1 := by
        apply countP_le_one_of_nodup_map (fun t => t.customer_id) newcs ?_ K
        exact hids.sublist ((List.filter_sublist _).map _)
      have htnew : t ∈ newcs := by
        apply List.mem_filter.mpr
        refine ⟨ht, ?_⟩
        simp only [Bool.not_eq_true', List.any_eq_false]
        intro r hr
        intro hrknk0
        have hrknk : r.nk = t.customer_id := by simpa using hrknk0
        rcases List.mem_append.mp hr with hr1 | hr1
        · rcases nk_of_mem_expirePass hr1 with ⟨d, hd, hnk⟩
          exact hkey ⟨d, hd, by rw [← hnk, hrknk, htk]⟩
        · rcases mem_assignSks hr1 with ⟨t'', ht'', s, hs⟩
          rcases List.mem_map.mp ht'' with ⟨p, hp, hpt⟩
          rcases p with ⟨s2, t2⟩
          rcases mem_changedPairs.mp hp with ⟨_, d', hd', _, hnk', _, _⟩
          apply hkey
          refine ⟨d', hd', ?_⟩
          have hrnk : r.nk = t''.customer_id := by rw [hs]; rfl
          have hpt2 : t2 = t'' := hpt
          rw [hnk', hpt2, ← hrnk, hrknk, htk]
      have hCpos : 0 < newcs.countP (fun t => t.customer_id == K) :=
        List.countP_pos_iff.mpr ⟨t, htnew, by simp [htk]⟩
      have hC1 : newcs.countP (fun t => t.customer_id == K) = 1 :=
        Nat.le_antisymm hCle hCpos
      rw [hsum, hA, hB, hC, hA0, hB0, hC1]

theorem sk_expire_image (sks : List Nat) (today : Date) (d : ClienteRow) :
    ((fun d => if sks.contains d.sk then
        { d with fecha_fin := some today.prevDay, es_vigente := false }
      else d) d).sk = d.sk := by
  by_cases hc : d.sk ∈ sks <;> simp [hc]

/-- C2: for a natural key classified as changed (a current dimension row
exists whose tracked attributes differ null-safely from the delta row), the
reconciliation run expires the previously current row — its validity end
becomes the batch day minus one and its current flag is cleared — and inserts
one new row carrying the delta's attributes with validity start equal to the
batch day, an open validity end and the current flag set; both rows exist in
the resulting dimension, and (given unique surrogate keys) the un-expired
original row is gone: every surviving row with its surrogate key is the
expired version. -/
theorem c2_changed_key_expire_insert
    (dim : List ClienteRow) (tmp2 : List Tmp2Customer) (today : Date)
    (hsk : (dim.map (fun d => d.sk)).Nodup)
    (t : Tmp2Customer) (d : ClienteRow)
    (ht : t ∈ tmp2) (hd : d ∈ dim) (hvig : d.es_vigente = true)
    (hnk : d.nk = t.customer_id) (hdiff : trackedDiff d t = true) :
    ({ d with fecha_fin := some today.prevDay, es_vigente := false } ∈
        update_scd2_clientes dim tmp2 today) ∧
    (∃ s, newVersion t s today ∈ update_scd2_clientes dim tmp2 today) ∧
    (∀ r ∈ update_scd2_clientes dim tmp2 today, r.sk = d.sk →
        r = { d with fecha_fin := some today.prevDay, es_vigente := false }) := by
  set pairs := changedPairs dim tmp2 with hpairs
  set sks := pairs.map (fun p => p.1) with hsks
  set dim1 := expirePass dim sks today with hdim1
  set ins1 := assignSks (maxSk dim + 1) (pairs.map (fun p => p.2)) today with hins1
  set dim2 := dimAfterChanged dim tmp2 today with hdim2
  set newcs := newCustomers dim tmp2 today with hnewcs
  set ins2 := assignSks (maxSk dim2 + 1) newcs today with hins2
  have hposteq : update_scd2_clientes dim tmp2 today = dim1 ++ ins1 ++ ins2 := rfl
  have hpairmem : (d.sk, t) ∈ pairs :=
    mem_changedPairs.mpr ⟨ht, d, hd, hvig, hnk, hdiff, rfl⟩
  have hskmem : d.sk ∈ sks := by
    rw [hsks]; exact List.mem_map_of_mem _ hpairmem
  have hexp : { d with fecha_fin := some today.prevDay, es_vigente := false } ∈ dim1 := by
    have himg := List.mem_map_of_mem (fun d : ClienteRow =>
      if sks.contains d.sk then
        { d with fecha_fin := some today.prevDay, es_vigente := false }
      else d) hd
    have hfd : (fun d : ClienteRow =>
        if sks.contains d.sk then
          { d with fecha_fin := some today.prevDay, es_vigente := false }
        else d) d = { d with fecha_fin := some today.prevDay, es_vigente := false } := by
      simp [hskmem]
    rw [hfd] at himg
    exact himg
  refine ⟨?_, ?_, ?_⟩
  · rw [hposteq]
    exact List.mem_append_left _ (List.mem_append_left _ hexp)
  · have htmem : t ∈ pairs.map (fun p => p.2) := by
      have := List.mem_map_of_mem (fun p : Nat × Tmp2Customer => p.2) hpairmem
      simpa using this
    rcases assignSks_mem_of_mem htmem (maxSk dim + 1) today with ⟨s, hs⟩
    refine ⟨s, ?_⟩
    rw [hposteq]
    exact List.mem_append_left _ (List.mem_append_right _ hs)
  · intro r hr hrsk
    rw [hposteq] at hr
    rcases List.mem_append.mp hr with hr12 | hr2
    · rcases List.mem_append.mp hr12 with hr1 | hr1
      · rcases List.mem_map.mp hr1 with ⟨d', hd', heq⟩
        have hsk' : d'.sk = d.sk := by
          rw [← hrsk, ← heq]
          exact (sk_expire_image sks today d').symm
        have hdd : d' = d := List.inj_on_of_nodup_map hsk hd' hd hsk'
        rw [← heq, hdd]
        simp [hskmem]
      · exfalso
        have hge := sk_ge_of_mem_assignSks hr1
        have hle := sk_le_maxSk hd
        rw [hrsk] at hge
        omega
    · exfalso
      have hge := sk_ge_of_mem_assignSks hr2
      have hle : d.sk ≤ maxSk dim2 := by
        have hmem2 : ({ d with fecha_fin := some today.prevDay, es_vigente := false } :
            ClienteRow) ∈ dim2 := List.mem_append_left _ hexp
        have := sk_le_maxSk hmem2
        simpa using this
      rw [hrsk] at hge
      omega

/-- Null-safe change predicate, stated the way the specification words it:
at least one tracked descriptive attribute differs once NULL and the empty
string are identified (so a null on one side and an empty string on the other
never counts as a change). -/
def specNullSafeChange (d : ClienteRow) (t : Tmp2Customer) : Prop :=
  coalesce d.direccion ≠ coalesce t.address ∨
  coalesce d.ciudad ≠ coalesce t.city ∨
  coalesce d.region ≠ coalesce t.region ∨
  coalesce d.codigo_postal ≠ coalesce t.postal_code ∨
  coalesce d.pais ≠ coalesce t.country ∨
  coalesce d.nombre_contacto ≠ coalesce t.contact_name ∨
  coalesce d.titulo_contacto ≠ coalesce t.contact_title

instance (d : ClienteRow) (t : Tmp2Customer) : Decidable (specNullSafeChange d t) := by
  unfold specNullSafeChange
  infer_instance

theorem trackedDiff_iff_spec (d : ClienteRow) (t : Tmp2Customer) :
    trackedDiff d t = true ↔ specNullSafeChange d t := by
  simp only [trackedDiff, specNullSafeChange, Bool.or_eq_true, bne_iff_ne, ne_eq]
  tauto

theorem filter_map_nk_eq {f : ClienteRow → ClienteRow} {dim : List ClienteRow} {k : String}
    (h1 : ∀ d ∈ dim, (f d).nk = d.nk) (h2 : ∀ d ∈ dim, d.nk = k → f d = d) :
    (dim.map f).filter (fun d => d.nk == k) = dim.filter (fun d => d.nk == k) := by
  induction dim with
  | nil => rfl
  | cons d rest ih =>
      have hrec := ih (fun d hd => h1 d (List.mem_cons_of_mem _ hd))
        (fun d hd => h2 d (List.mem_cons_of_mem _ hd))
      by_cases hk : d.nk = k
      · have hfd : f d = d := h2 d (List.mem_cons_self ..) hk
        simp only [List.map_cons, List.filter_cons, hfd, hk]
        simp [hrec]
      · have hfk : (f d).nk = d.nk := h1 d (List.mem_cons_self ..)
        simp only [List.map_cons, List.filter_cons, hfk]
        simp only [beq_iff_eq]
        simp [hk, hrec]

theorem hasNk_dimAfterChanged (dim : List ClienteRow) (tmp2 : List Tmp2Customer)
    (today : Date) (k : String) :
    (∃ r ∈ dimAfterChanged dim tmp2 today, r.nk = k) ↔ ∃ d ∈ dim, d.nk = k := by
  constructor
  · rintro ⟨r, hr, hrk⟩
    rcases List.mem_append.mp hr with hr1 | hr1
    · rcases nk_of_mem_expirePass hr1 with ⟨d, hd, hnk⟩
      exact ⟨d, hd, by rw [← hnk, hrk]⟩
    · rcases mem_assignSks hr1 with ⟨t', ht', s, hs⟩
      rcases List.mem_map.mp ht' with ⟨p, hp, hpt⟩
      rcases p with ⟨s2, t2⟩
      rcases mem_changedPairs.mp hp with ⟨_, d', hd', _, hnk', _, _⟩
      have hpt2 : t2 = t' := hpt
      refine ⟨d', hd', ?_⟩
      have hrnk : r.nk = t'.customer_id := by rw [hs]; rfl
      rw [hnk', hpt2, ← hrnk, hrk]
  · rintro ⟨d, hd, hnk⟩
    have himg := List.mem_map_of_mem (fun d : ClienteRow =>
      if ((changedPairs dim tmp2).map (fun p => p.1)).contains d.sk then
        { d with fecha_fin := some today.prevDay, es_vigente := false }
      else d) hd
    refine ⟨_, List.mem_append_left _ himg, ?_⟩
    rw [← hnk]
    by_cases hc : d.sk ∈ (changedPairs dim tmp2).map (fun p => p.1) <;> simp [hc]

/-- C3: the SCD2 reconciler classifies a delta row as changed exactly when a
current dimension row for its natural key exists and at least one tracked
descriptive attribute differs under null-safe comparison (null on one side
versus empty string on the other never counts, `specNullSafeChange`); as new
exactly when no dimension row at all exists for the key; and otherwise as
unchanged, in which case — given unique surrogate keys and distinct delta
keys — no row of that key is written: the rows of the key after the run are
exactly the rows before it. -/
theorem c3_delta_classification
    (dim : List ClienteRow) (tmp2 : List Tmp2Customer) (today : Date) :
    (∀ t ∈ tmp2,
      ((∃ s, (s, t) ∈ changedPairs dim tmp2) ↔
        ∃ d ∈ dim, d.es_vigente = true ∧ d.nk = t.customer_id ∧ specNullSafeChange d t)) ∧
    (∀ t ∈ tmp2,
      (t ∈ newCustomers dim tmp2 today ↔ ¬∃ d ∈ dim, d.nk = t.customer_id)) ∧
    (∀ t ∈ tmp2,
      (dim.map (fun d => d.sk)).Nodup →
      (tmp2.map (fun t => t.customer_id)).Nodup →
      (∃ d ∈ dim, d.es_vigente = true ∧ d.nk = t.customer_id) →
      (∀ d ∈ dim, d.es_vigente = true → d.nk = t.customer_id → trackedDiff d t = false) →
      (update_scd2_clientes dim tmp2 today).filter (fun d => d.nk == t.customer_id) =
        dim.filter (fun d => d.nk == t.customer_id)) := by
  refine ⟨?_, ?_, ?_⟩
  · intro t ht
    constructor
    · rintro ⟨s, hs⟩
      rcases mem_changedPairs.mp hs with ⟨_, d, hd, hvig, hnk, hdiff, _⟩
      exact ⟨d, hd, hvig, hnk, (trackedDiff_iff_spec d t).mp hdiff⟩
    · rintro ⟨d, hd, hvig, hnk, hspec⟩
      exact ⟨d.sk, mem_changedPairs.mpr
        ⟨ht, d, hd, hvig, hnk, (trackedDiff_iff_spec d t).mpr hspec, rfl⟩⟩
  · intro t ht
    unfold newCustomers
    rw [List.mem_filter]
    constructor
    · rintro ⟨_, hcond⟩ ⟨d, hd, hnk⟩
      simp only [Bool.not_eq_true', List.any_eq_false] at hcond
      rcases (hasNk_dimAfterChanged dim tmp2 today t.customer_id).mpr ⟨d, hd, hnk⟩ with
        ⟨r, hr, hrk⟩
      exact (hcond r hr) (by simp [hrk])
    · intro hno
      refine ⟨ht, ?_⟩
      simp only [Bool.not_eq_true', List.any_eq_false]
      intro r hr hrk0
      have hrk : r.nk = t.customer_id := by simpa using hrk0
      exact hno ((hasNk_dimAfterChanged dim tmp2 today t.customer_id).mp ⟨r, hr, hrk⟩)
  · intro t ht hsk hids hcur hnodiff
    have hnotexp : ∀ d ∈ dim, d.nk = t.customer_id →
        d.sk ∉ (changedPairs dim tmp2).map (fun p => p.1) := by
      intro d hd hdk hmem
      rcases List.mem_map.mp hmem with ⟨p, hp, hpsk⟩
      rcases p with ⟨s, t'⟩
      rcases mem_changedPairs.mp hp with ⟨ht', d', hd', hvig', hnk', hdiff', hsk'⟩
      have hdd : d' = d := List.inj_on_of_nodup_map hsk hd' hd (by rw [hsk']; exact hpsk)
      have htt : t' = t := by
        apply List.inj_on_of_nodup_map hids ht' ht
        rw [← hnk', hdd, hdk]
      rw [hdd, htt] at hdiff'
      rw [hnodiff d hd (by rw [← hdd]; exact hvig') hdk] at hdiff'
      exact Bool.noConfusion hdiff'
    have hdim1 : (expirePass dim ((changedPairs dim tmp2).map (fun p => p.1)) today).filter
        (fun d => d.nk == t.customer_id) = dim.filter (fun d => d.nk == t.customer_id) := by
      apply filter_map_nk_eq
      · intro d _
        by_cases hc : d.sk ∈ (changedPairs dim tmp2).map (fun p => p.1) <;> simp [hc]
      · intro d hd hdk
        have := hnotexp d hd hdk
        simp [this]
    have hins1 : (assignSks (maxSk dim + 1)
        ((changedPairs dim tmp2).map (fun p => p.2)) today).filter
        (fun d => d.nk == t.customer_id) = [] := by
      apply List.filter_eq_nil_iff.mpr
      intro r hr hrk0
      have hrk : r.nk = t.customer_id := by simpa using hrk0
      rcases mem_assignSks hr with ⟨t', ht', s, hs⟩
      rcases List.mem_map.mp ht' with ⟨p, hp, hpt⟩
      rcases p with ⟨s2, t2⟩
      rcases mem_changedPairs.mp hp with ⟨ht2, d', hd', hvig', hnk', hdiff', _⟩
      have hpt2 : t2 = t' := hpt
      have hrnk : r.nk = t'.customer_id := by rw [hs]; rfl
      have htt : t2 = t := by
        apply List.inj_on_of_nodup_map hids ht2 ht
        rw [hpt2, ← hrnk, hrk]
      have hdk : d'.nk = t.customer_id := by
        rw [hnk', hpt2, ← hrnk, hrk]
      rw [htt] at hdiff'
      rw [hnodiff d' hd' hvig' hdk] at hdiff'
      exact Bool.noConfusion hdiff'
    have hins2 : (assignSks (maxSk (dimAfterChanged dim tmp2 today) + 1)
        (newCustomers dim tmp2 today) today).filter
        (fun d => d.nk == t.customer_id) = [] := by
      apply List.filter_eq_nil_iff.mpr
      intro r hr hrk0
      have hrk : r.nk = t.customer_id := by simpa using hrk0
      rcases mem_assignSks hr with ⟨t'', ht'', s, hs⟩
      have hrnk : r.nk = t''.customer_id := by rw [hs]; rfl
      have htt : t'' = t := by
        apply List.inj_on_of_nodup_map hids (List.mem_of_mem_filter ht'') ht
        rw [← hrnk, hrk]
      rcases List.mem_filter.mp ht'' with ⟨_, hcond⟩
      simp only [Bool.not_eq_true', List.any_eq_false] at hcond
      rcases hcur with ⟨d0, hd0, hvig0, hnk0⟩
      rcases (hasNk_dimAfterChanged dim tmp2 today t.customer_id).mpr ⟨d0, hd0, hnk0⟩ with
        ⟨r0, hr0, hr0k⟩
      apply hcond r0 hr0
      rw [htt]
      simp [hr0k]
    have hshape : update_scd2_clientes dim tmp2 today =
        (expirePass dim ((changedPairs dim tmp2).map (fun p => p.1)) today ++
          assignSks (maxSk dim + 1)
            ((changedPairs dim tmp2).map (fun p => p.2)) today) ++
        assignSks (maxSk (dimAfterChanged dim tmp2 today) + 1)
          (newCustomers dim tmp2 today) today := rfl
    rw [hshape, List.filter_append, List.filter_append, hdim1, hins1, hins2]
    simp

/-- Concrete batch day used by the witnesses. -/
def day0 : Date := ⟨2024, 5, 10⟩

/-- Concrete current dimension row (city Berlin) for the SCD2 witnesses. -/
def scdRow0 : ClienteRow :=
  { sk := 1
    nk := "ALFKI"
    nombre_compania := some "Alfreds Futterkiste"
    nombre_contacto := some "Maria Anders"
    titulo_contacto := some "Sales Representative"
    direccion := some "Obere Str. 57"
    ciudad := some "Berlin"
    region := none
    codigo_postal := some "12209"
    pais := some "Germany"
    fecha_inicio := ⟨2023, 1, 1⟩
    fecha_fin := none
    es_vigente := true }

/-- Concrete delta row for the same key with a changed city. -/
def scdT0 : Tmp2Customer :=
  { customer_id := "ALFKI"
    company_name := some "Alfreds Futterkiste"
    contact_name := some "Maria Anders"
    contact_title := some "Sales Representative"
    address := some "Obere Str. 57"
    city := some "Munich"
    region := none
    postal_code := some "12209"
    country := some "Germany" }

def scdDim0 : List ClienteRow := [scdRow0]

def scdDelta0 : List Tmp2Customer := [scdT0]

theorem c1_scd2_current_flag_unique_witness :
    scd2Inv (update_scd2_clientes scdDim0 scdDelta0 day0) :=
  c1_scd2_current_flag_unique scdDim0 scdDelta0 day0 (by decide) (by decide)
    (fun k hk => by
      rcases hk with ⟨d, hd, hnk⟩
      rw [show scdDim0 = [scdRow0] from rfl, List.mem_singleton] at hd
      subst hd
      subst hnk
      decide)

theorem c2_changed_key_expire_insert_witness :
    ({ scdRow0 with fecha_fin := some day0.prevDay, es_vigente := false } ∈
        update_scd2_clientes scdDim0 scdDelta0 day0) ∧
    (∃ s, newVersion scdT0 s day0 ∈ update_scd2_clientes scdDim0 scdDelta0 day0) :=
  ⟨(c2_changed_key_expire_insert scdDim0 scdDelta0 day0 (by decide) scdT0 scdRow0
      (by decide) (by decide) (by decide) (by decide) (by decide)).1,
   (c2_changed_key_expire_insert scdDim0 scdDelta0 day0 (by decide) scdT0 scdRow0
      (by decide) (by decide) (by decide) (by decide) (by decide)).2.1⟩

/-- Concrete current dimension row whose region is NULL, for the null-safe
classification witness. -/
def scdRowNull : ClienteRow :=
  { sk := 1
    nk := "BONAP"
    nombre_compania := some "Bon app"
    nombre_contacto := some "Laurence Lebihan"
    titulo_contacto := some "Owner"
    direccion := some "12, rue des Bouchers"
    ciudad := some "Marseille"
    region := none
    codigo_postal := some "13008"
    pais := some "France"
    fecha_inicio := ⟨2023, 1, 1⟩
    fecha_fin := none
    es_vigente := true }

/-- Concrete delta row identical to `scdRowNull` except that its region is the
empty string where the dimension holds NULL. -/
def scdTEmpty : Tmp2Customer :=
  { customer_id := "BONAP"
    company_name := some "Bon app"
    contact_name := some "Laurence Lebihan"
    contact_title := some "Owner"
    address := some "12, rue des Bouchers"
    city := some "Marseille"
    region := some ""
    postal_code := some "13008"
    country := some "France" }

def scdDimN : List ClienteRow := [scdRowNull]

def scdDeltaN : List Tmp2Customer := [scdTEmpty]

theorem c3_delta_classification_witness :
    (¬∃ s, (s, scdTEmpty) ∈ changedPairs scdDimN scdDeltaN) ∧
    ((update_scd2_clientes scdDimN scdDeltaN day0).filter (fun d => d.nk == "BONAP") =
      scdDimN.filter (fun d => d.nk == "BONAP")) := by
  constructor
  · intro hex
    have h2 := ((c3_delta_classification scdDimN scdDeltaN day0).1 scdTEmpty
      (by decide)).mp hex
    revert h2
    decide
  · exact (c3_delta_classification scdDimN scdDeltaN day0).2.2 scdTEmpty
      (by decide) (by decide) (by decide) (by decide) (by decide)

/-- Row of the `TMP2_order_details` delta staging table (step_08 schema:
`order_id INTEGER`, `product_id INTEGER`, `unit_price REAL`,
`quantity INTEGER`, `discount REAL`).  The order-line keys are modelled as
always present — a NULL key column never joins anywhere in the reconciler, so
such a line could only ever be dropped. -/
structure OrderDetail where
  order_id : Nat
  product_id : Nat
  unit_price : Rat
  quantity : Rat
  discount : Rat
deriving DecidableEq, Repr

/-- Row of the `TMP2_orders` delta staging table (step_08 schema), restricted
to the columns the reconcilers and the remediation read. -/
structure Tmp2Order where
  order_id : Nat
  customer_id : Option String
  employee_id : Option Nat
  order_date : Option Date
  shipped_date : Option Date
  ship_via : Option Nat
  freight : Option Rat
  ship_address : Option String
  ship_city : Option String
  ship_region : Option String
  ship_postal_code : Option String
  ship_country : Option String
deriving DecidableEq, Repr

/-- Surrogate/natural key pair of a `DWA_DIM_Productos` row. -/
structure ProductoRow where
  sk : Nat
  nk : Nat
deriving DecidableEq, Repr

/-- Surrogate/natural key pair of a `DWA_DIM_Empleados` row. -/
structure EmpleadoRow where
  sk : Nat
  nk : Nat
deriving DecidableEq, Repr

/-- Surrogate key and calendar date of a `DWA_DIM_Tiempo` row. -/
structure TiempoRow where
  sk : Nat
  fecha : Date
deriving DecidableEq, Repr

/-- Lookup columns of a `DWA_DIM_Geografia` row. -/
structure GeografiaRow where
  sk : Nat
  direccion : Option String
  ciudad : Option String
  pais : Option String
deriving DecidableEq, Repr

/-- Surrogate/natural key pair of a `DWA_DIM_Shippers` row. -/
structure ShipperRow where
  sk : Nat
  nk : Nat
deriving DecidableEq, Repr

/-- Row of the `DWA_FACT_Ventas` fact table (step_05 DDL).  The employee,
geography and shipper keys are `Option` because the insert pass of step_09
left-joins those dimensions; the DDL declares those columns NOT NULL, so a
`none` value here is only ever a candidate of the `SELECT` — the `INSERT`
rejects it with `IntegrityError` and such a row never reaches the stored
table. -/
structure FactRow where
  sk_cliente : Nat
  sk_producto : Nat
  sk_empleado : Option Nat
  sk_tiempo : Nat
  sk_geografia : Option Nat
  sk_shipper : Option Nat
  precio_unitario : Rat
  cantidad : Rat
  descuento : Rat
  flete : Option Rat
  monto_total : Rat
  nk_orden_id : Nat
deriving DecidableEq, Repr

/-- Database environment read (but not written) by
`update_fact_ventas_transaction`: the two delta staging tables and the six
dimensions. -/
structure FactEnv where
  ods : List OrderDetail
  orders : List Tmp2Order
  prods : List ProductoRow
  clientes : List ClienteRow
  empleados : List EmpleadoRow
  tiempos : List TiempoRow
  geos : List GeografiaRow
  shippers : List ShipperRow
deriving Repr

/-- The correlated subquery shared by the four `SET` clauses and the
`WHERE EXISTS` guard of the fact `UPDATE` (step_09, lines 210-247): the first
delta order-detail row joining `DWA_DIM_Productos` such that
`od.order_id = f.nk_orden_id` and `dp.sk_producto = f.sk_producto`. -/
def deltaMatch (E : FactEnv) (f : FactRow) : Option OrderDetail :=
  E.ods.find? (fun od => od.order_id == f.nk_orden_id &&
    E.prods.any (fun dp => od.product_id == dp.nk && dp.sk == f.sk_producto))

/-- Effect of the fact `UPDATE` statement on one fact row: when a delta row
matches, overwrite quantity, unit price, discount, and recompute
`monto_total = unit_price * quantity * (1 - discount)`; otherwise leave the
row alone. -/
def updateFactRow (E : FactEnv) (f : FactRow) : FactRow :=
  match deltaMatch E f with
  | some od =>
      { f with
        cantidad := od.quantity
        precio_unitario := od.unit_price
        descuento := od.discount
        monto_total := od.unit_price * od.quantity * (1 - od.discount) }
  | none => f

/-- The whole update pass of `update_fact_ventas_transaction` over the fact
table. -/
def updatePass (E : FactEnv) (facts : List FactRow) : List FactRow :=
  facts.map (updateFactRow E)

/-- The `LEFT JOIN DWA_DIM_Clientes dc ON o.customer_id = dc.nk_cliente_id
AND dc.es_vigente = 1` lookup of the insert pass; NULL `customer_id` joins
nothing. -/
def resolveCliente (dcs : List ClienteRow) (cid : Option String) : Option Nat :=
  match cid with
  | none => none
  | some c => (dcs.find? (fun d => d.nk == c && d.es_vigente)).map (fun d => d.sk)

/-- The `LEFT JOIN DWA_DIM_Productos dp ON od.product_id = dp.nk_producto_id`
lookup. -/
def resolveProducto (dps : List ProductoRow) (pid : Nat) : Option Nat :=
  (dps.find? (fun p => p.nk == pid)).map (fun p => p.sk)

/-- The `LEFT JOIN DWA_DIM_Empleados de ON o.employee_id = de.nk_empleado_id`
lookup. -/
def resolveEmpleado (des : List EmpleadoRow) (eid : Option Nat) : Option Nat :=
  eid.bind (fun e => (des.find? (fun r => r.nk == e)).map (fun r => r.sk))

/-- The `LEFT JOIN DWA_DIM_Tiempo dt ON DATE(o.order_date) = dt.fecha`
lookup. -/
def resolveTiempo (dts : List TiempoRow) (od : Option Date) : Option Nat :=
  od.bind (fun d => (dts.find? (fun r => r.fecha == d)).map (fun r => r.sk))

/-- SQL equality on nullable columns: NULL compares equal to nothing. -/
def optEq [BEq α] : Option α → Option α → Bool
  | some a, some b => a == b
  | _, _ => false

/-- The `LEFT JOIN DWA_DIM_Geografia dg ON o.ship_address = dg.direccion AND
o.ship_city = dg.ciudad AND o.ship_country = dg.pais` lookup. -/
def resolveGeografia (dgs : List GeografiaRow) (o : Tmp2Order) : Option Nat :=
  (dgs.find? (fun g => optEq g.direccion o.ship_address &&
    optEq g.ciudad o.ship_city && optEq g.pais o.ship_country)).map (fun g => g.sk)

/-- The `LEFT JOIN DWA_DIM_Shippers ds ON o.ship_via = ds.nk_shipper_id`
lookup. -/
def resolveShipper (dss : List ShipperRow) (v : Option Nat) : Option Nat :=
  v.bind (fun s => (dss.find? (fun r => r.nk == s)).map (fun r => r.sk))

/-- Fact row produced by the insert pass's `SELECT` list (step_09,
lines 255-272): resolved surrogate keys, delta measures, the order's freight
and the recomputed `monto_total`. -/
def mkFactRow (od : OrderDetail) (o : Tmp2Order) (skc skp skt : Nat)
    (ske skg sksh : Option Nat) : FactRow :=
  { sk_cliente := skc
    sk_producto := skp
    sk_empleado := ske
    sk_tiempo := skt
    sk_geografia := skg
    sk_shipper := sksh
    precio_unitario := od.unit_price
    cantidad := od.quantity
    descuento := od.discount
    flete := o.freight
    monto_total := od.unit_price * od.quantity * (1 - od.discount)
    nk_orden_id := o.order_id }

/-- Candidate rows of the insert pass (step_09, lines 255-289), before the
`SELECT DISTINCT` deduplication: one candidate per delta order line whose
order exists, whose customer, product and time lookups all resolve
(`dc.sk_cliente IS NOT NULL AND dp.sk_producto IS NOT NULL AND dt.sk_tiempo
IS NOT NULL`), and whose `(nk_orden_id, sk_producto)` pair has no fact row
yet (`NOT EXISTS`). -/
def insertRows (E : FactEnv) (facts : List FactRow) : List FactRow :=
  E.ods.filterMap (fun od =>
    match E.orders.find? (fun o => o.order_id == od.order_id) with
    | none => none
    | some o =>
      match resolveProducto E.prods od.product_id with
      | none => none
      | some skp =>
        match resolveCliente E.clientes o.customer_id with
        | none => none
        | some skc =>
          match resolveTiempo E.tiempos o.order_date with
          | none => none
          | some skt =>
            if facts.any (fun f => f.nk_orden_id == o.order_id && f.sk_producto == skp) then
              none
            else
              some (mkFactRow od o skc skp skt (resolveEmpleado E.empleados o.employee_id)
                (resolveGeografia E.geos o) (resolveShipper E.shippers o.ship_via)))

/-- Deduplication of `SELECT DISTINCT`, keeping the first occurrence of each
row value. -/
def dedupSeen [BEq α] (seen : List α) : List α → List α
  | [] => []
  | a :: as => if seen.contains a then dedupSeen seen as else a :: dedupSeen (a :: seen) as

/-- The whole insert pass: the distinct candidate rows of the `SELECT`. -/
def insertPass (E : FactEnv) (facts : List FactRow) : List FactRow :=
  dedupSeen [] (insertRows E facts)

/-- NOT NULL admissibility of an insert candidate under the `DWA_FACT_Ventas`
DDL (step_05, lines 144-158): `sk_empleado`, `sk_geografia_envio` and
`sk_shipper` are declared NOT NULL (`flete` is nullable), so a candidate row
whose employee, geography or shipper lookup failed to resolve violates the
constraint and makes the `INSERT` statement raise `sqlite3.IntegrityError`. -/
def factRowNotNullOk (r : FactRow) : Bool :=
  r.sk_empleado.isSome && r.sk_geografia.isSome && r.sk_shipper.isSome

/-- Full data effect of `update_fact_ventas_transaction` (step_09,
lines 200-308) on `DWA_FACT_Ventas`, run under
`execute_transaction_with_retry`: the update pass mutates matching rows in
place, then the insert pass appends the distinct candidate rows, its
`NOT EXISTS` guard evaluated against the updated table (whose key pairs are
those of the original table).  If any candidate row violates the fact
table's NOT NULL constraints, the `INSERT` raises `IntegrityError`,
`execute_transaction_with_retry` rolls the whole transaction back (update
pass included) and re-raises, and the table is left exactly as it was. -/
def update_fact_ventas (E : FactEnv) (facts : List FactRow) : List FactRow :=
  let updated := updatePass E facts
  let inserted := insertPass E updated
  if inserted.all factRowNotNullOk then updated ++ inserted else facts

/-- Delta well-formedness: `(order_id, product_id)` identifies an order line
(the delta is keyed by its source primary key). -/
def odPairsUnique (ods : List OrderDetail) : Prop :=
  ∀ a ∈ ods, ∀ b ∈ ods, a.order_id = b.order_id → a.product_id = b.product_id → a = b

theorem mem_dedupSeen {α : Type} [BEq α] [LawfulBEq α] {seen l : List α} {a : α} :
    a ∈ dedupSeen seen l ↔ a ∈ l ∧ a ∉ seen := by
  induction l generalizing seen with
  | nil => simp [dedupSeen]
  | cons b bs ih =>
      by_cases hb : b ∈ seen
      · rw [dedupSeen, if_pos (by simpa using hb), ih]
        constructor
        · rintro ⟨hmem, hns⟩
          exact ⟨List.mem_cons_of_mem _ hmem, hns⟩
        · rintro ⟨hmem, hns⟩
          rcases List.mem_cons.mp hmem with h | h
          · exact absurd (h ▸ hb) hns
          · exact ⟨h, hns⟩
      · rw [dedupSeen, if_neg (by simpa using hb)]
        constructor
        · intro hmem
          rcases List.mem_cons.mp hmem with h | h
          · exact ⟨h ▸ List.mem_cons_self .., h ▸ hb⟩
          · rcases ih.mp h with ⟨h1, h2⟩
            refine ⟨List.mem_cons_of_mem _ h1, fun hs => h2 (List.mem_cons_of_mem _ hs)⟩
        · rintro ⟨hmem, hns⟩
          rcases List.mem_cons.mp hmem with h | h
          · exact h ▸ List.mem_cons_self ..
          · by_cases hab : a = b
            · exact hab ▸ List.mem_cons_self ..
            · exact List.mem_cons_of_mem _ (ih.mpr ⟨h, by
                intro hs
                rcases List.mem_cons.mp hs with h' | h'
                · exact hab h'
                · exact hns h'⟩)

theorem find?_key_eq {α β : Type} [DecidableEq β] (f : α → β) (l : List α)
    (hnd : (l.map f).Nodup) (a : α) (ha : a ∈ l) :
    l.find? (fun x => f x == f a) = some a := by
  induction l with
  | nil => cases ha
  | cons b bs ih =>
      simp only [List.map_cons, List.nodup_cons] at hnd
      rcases List.mem_cons.mp ha with h | h
      · subst h
        simp [List.find?_cons]
      · by_cases hba : f b = f a
        · exfalso
          apply hnd.1
          rw [hba]
          exact List.mem_map_of_mem f h
        · have hfb : (f b == f a) = false := by simp [hba]
          rw [List.find?_cons, hfb]
          exact ih hnd.2 h

theorem updateFactRow_nk (E : FactEnv) (f : FactRow) :
    (updateFactRow E f).nk_orden_id = f.nk_orden_id := by
  unfold updateFactRow
  cases deltaMatch E f <;> rfl

theorem updateFactRow_skp (E : FactEnv) (f : FactRow) :
    (updateFactRow E f).sk_producto = f.sk_producto := by
  unfold updateFactRow
  cases deltaMatch E f <;> rfl

theorem deltaMatch_updateFactRow (E : FactEnv) (f : FactRow) :
    deltaMatch E (updateFactRow E f) = deltaMatch E f := by
  unfold deltaMatch
  simp only [updateFactRow_nk, updateFactRow_skp]

theorem updateFactRow_idem (E : FactEnv) (f : FactRow) :
    updateFactRow E (updateFactRow E f) = updateFactRow E f := by
  cases h : deltaMatch E f with
  | none =>
      have hf : updateFactRow E f = f := by unfold updateFactRow; rw [h]
      rw [hf, hf]
  | some od =>
      have h2 : deltaMatch E (updateFactRow E f) = some od := by
        rw [deltaMatch_updateFactRow, h]
      show (match deltaMatch E (updateFactRow E f) with
        | some od => { updateFactRow E f with
            cantidad := od.quantity
            precio_unitario := od.unit_price
            descuento := od.discount
            monto_total := od.unit_price * od.quantity * (1 - od.discount) }
        | none => updateFactRow E f) = updateFactRow E f
      rw [h2]
      show ({ updateFactRow E f with
        cantidad := od.quantity
        precio_unitario := od.unit_price
        descuento := od.discount
        monto_total := od.unit_price * od.quantity * (1 - od.discount) } : FactRow)
        = updateFactRow E f
      unfold updateFactRow
      rw [h]

theorem deltaMatch_unique (ods : List OrderDetail) (prods : List ProductoRow)
    (hpairs : odPairsUnique ods) (hsks : (prods.map (fun p => p.sk)).Nodup)
    {od : OrderDetail} {dp : ProductoRow} {oid skp : Nat}
    (hod : od ∈ ods) (hdp : dp ∈ prods)
    (h1 : od.order_id = oid) (h2 : od.product_id = dp.nk) (h3 : dp.sk = skp) :
    ods.find? (fun od' => od'.order_id == oid &&
      prods.any (fun q => od'.product_id == q.nk && q.sk == skp)) = some od := by
  have hpred : (fun od' : OrderDetail => od'.order_id == oid &&
      prods.any (fun q => od'.product_id == q.nk && q.sk == skp)) od = true := by
    simp only [Bool.and_eq_true, beq_iff_eq, List.any_eq_true]
    exact ⟨h1, dp, hdp, h2, h3⟩
  cases hfind : ods.find? (fun od' => od'.order_id == oid &&
      prods.any (fun q => od'.product_id == q.nk && q.sk == skp)) with
  | none =>
      exfalso
      exact (List.find?_eq_none.mp hfind od hod) hpred
  | some od' =>
      have hmem := List.mem_of_find?_eq_some hfind
      have hp' := List.find?_some hfind
      simp only [Bool.and_eq_true, beq_iff_eq, List.any_eq_true] at hp'
      rcases hp' with ⟨hoid', q, hq, hpid', hsk'⟩
      have hqdp : q = dp := List.inj_on_of_nodup_map hsks hq hdp (by rw [hsk', h3])
      have : od' = od := by
        apply hpairs od' hmem od hod
        · rw [hoid', h1]
        · rw [hpid', hqdp, h2]
      rw [this]

/-- C4: the fact reconciler's update pass, for every existing fact row whose
`(nk_orden_id, sk_producto)` pair matches a delta order line (through the
product dimension), overwrites only the measures — unit price, quantity,
discount — and recomputes `monto_total = unit_price * quantity *
(1 - discount)`; the row's dimension foreign keys (customer, employee, time,
geography, shipper), its freight and its natural order id are left unchanged.
Hypotheses: delta order lines are keyed by `(order_id, product_id)` and
product surrogate keys are unique, which make the correlated subquery
unambiguous. -/
theorem c4_update_pass_measures_only
    (E : FactEnv) (facts : List FactRow)
    (hpairs : odPairsUnique E.ods)
    (hsks : (E.prods.map (fun p => p.sk)).Nodup) :
    ∀ f ∈ facts, ∀ od ∈ E.ods, ∀ dp ∈ E.prods,
      od.order_id = f.nk_orden_id → od.product_id = dp.nk → dp.sk = f.sk_producto →
      updateFactRow E f ∈ updatePass E facts ∧
      (updateFactRow E f).precio_unitario = od.unit_price ∧
      (updateFactRow E f).cantidad = od.quantity ∧
      (updateFactRow E f).descuento = od.discount ∧
      (updateFactRow E f).monto_total = od.unit_price * od.quantity * (1 - od.discount) ∧
      (updateFactRow E f).sk_cliente = f.sk_cliente ∧
      (updateFactRow E f).sk_producto = f.sk_producto ∧
      (updateFactRow E f).sk_empleado = f.sk_empleado ∧
      (updateFactRow E f).sk_tiempo = f.sk_tiempo ∧
      (updateFactRow E f).sk_geografia = f.sk_geografia ∧
      (updateFactRow E f).sk_shipper = f.sk_shipper ∧
      (updateFactRow E f).flete = f.flete ∧
      (updateFactRow E f).nk_orden_id = f.nk_orden_id := by
  intro f hf od hod dp hdp h1 h2 h3
  have hmatch : deltaMatch E f = some od :=
    deltaMatch_unique E.ods E.prods hpairs hsks hod hdp h1 h2 h3
  refine ⟨List.mem_map_of_mem _ hf, ?_⟩
  unfold updateFactRow
  rw [hmatch]
  exact ⟨rfl, rfl, rfl, rfl, rfl, rfl, rfl, rfl, rfl, rfl, rfl, rfl⟩

/-- Concrete product dimension row for the fact witnesses. -/
def prodRow0 : ProductoRow := ⟨10, 20⟩

/-- Concrete delta order line correcting the quantity of order 5001,
product 20 from 3 to 5 (spec Scenario 4). -/
def od0 : OrderDetail :=
  { order_id := 5001, product_id := 20, unit_price := 2, quantity := 5, discount := 0 }

/-- Concrete pre-existing fact row for order 5001, product surrogate key 10. -/
def factRow0 : FactRow :=
  { sk_cliente := 7
    sk_producto := 10
    sk_empleado := some 4
    sk_tiempo := 3
    sk_geografia := some 9
    sk_shipper := some 2
    precio_unitario := 2
    cantidad := 3
    descuento := 0
    flete := some 1
    monto_total := 6
    nk_orden_id := 5001 }

/-- Concrete fact environment for the update-pass witness. -/
def factEnv0 : FactEnv :=
  { ods := [od0]
    orders := []
    prods := [prodRow0]
    clientes := []
    empleados := []
    tiempos := []
    geos := []
    shippers := [] }

theorem c4_update_pass_measures_only_witness :
    updateFactRow factEnv0 factRow0 ∈ updatePass factEnv0 [factRow0] ∧
    (updateFactRow factEnv0 factRow0).cantidad = 5 ∧
    (updateFactRow factEnv0 factRow0).sk_cliente = 7 :=
  have h := c4_update_pass_measures_only factEnv0 [factRow0]
    (fun a ha b hb _ _ => by rw [List.mem_singleton.mp ha, List.mem_singleton.mp hb])
    (by decide)
    factRow0 (List.mem_singleton.mpr rfl)
    od0 (List.mem_singleton.mpr rfl)
    prodRow0 (List.mem_singleton.mpr rfl)
    rfl rfl rfl
  ⟨h.1, h.2.2.1, h.2.2.2.2.2.1⟩

theorem insertRows_mem_spec {E : FactEnv} {facts : List FactRow} {r : FactRow}
    (hr : r ∈ insertRows E facts) :
    ∃ od ∈ E.ods, ∃ o,
      E.orders.find? (fun x => x.order_id == od.order_id) = some o ∧
      ∃ skp skc skt,
        resolveProducto E.prods od.product_id = some skp ∧
        resolveCliente E.clientes o.customer_id = some skc ∧
        resolveTiempo E.tiempos o.order_date = some skt ∧
        (facts.any (fun f => f.nk_orden_id == o.order_id && f.sk_producto == skp)) = false ∧
        r = mkFactRow od o skc skp skt (resolveEmpleado E.empleados o.employee_id)
          (resolveGeografia E.geos o) (resolveShipper E.shippers o.ship_via) := by
  rcases List.mem_filterMap.mp hr with ⟨od, hod, hfod⟩
  refine ⟨od, hod, ?_⟩
  cases h1 : E.orders.find? (fun x => x.order_id == od.order_id) with
  | none => simp [h1] at hfod
  | some o =>
    refine ⟨o, rfl, ?_⟩
    cases h2 : resolveProducto E.prods od.product_id with
    | none => simp [h1, h2] at hfod
    | some skp =>
      cases h3 : resolveCliente E.clientes o.customer_id with
      | none => simp [h1, h2, h3] at hfod
      | some skc =>
        cases h4 : resolveTiempo E.tiempos o.order_date with
        | none => simp [h1, h2, h3, h4] at hfod
        | some skt =>
          cases h5 : facts.any
              (fun f => f.nk_orden_id == o.order_id && f.sk_producto == skp) with
          | true => simp [h1, h2, h3, h4, h5] at hfod
          | false =>
            refine ⟨skp, skc, skt, rfl, rfl, rfl, h5, ?_⟩
            simp only [h1, h2, h3, h4, h5, Bool.false_eq_true, if_false,
              Option.some.injEq] at hfod
            exact hfod.symm

theorem insertRows_mem_intro {E : FactEnv} {facts : List FactRow}
    {od : OrderDetail} {o : Tmp2Order} {skp skc skt : Nat}
    (hod : od ∈ E.ods)
    (hfind : E.orders.find? (fun x => x.order_id == od.order_id) = some o)
    (hskp : resolveProducto E.prods od.product_id = some skp)
    (hskc : resolveCliente E.clientes o.customer_id = some skc)
    (hskt : resolveTiempo E.tiempos o.order_date = some skt)
    (hany : (facts.any
      (fun f => f.nk_orden_id == o.order_id && f.sk_producto == skp)) = false) :
    mkFactRow od o skc skp skt (resolveEmpleado E.empleados o.employee_id)
      (resolveGeografia E.geos o) (resolveShipper E.shippers o.ship_via) ∈
      insertRows E facts := by
  apply List.mem_filterMap.mpr
  refine ⟨od, hod, ?_⟩
  simp only [hfind, hskp, hskc, hskt, hany, Bool.false_eq_true, if_false]

/-- Characterisation of the insert pass's candidate set against the table it
is evaluated on.  The three parts state: every candidate row originates from
a delta line with customer, product and time lookups resolved and a fresh
`(order id, product)` key pair; every such line yields a candidate; and a
line with a resolved product but a failed customer or time lookup yields no
candidate for its key pair. -/
theorem insertPass_spec
    (E : FactEnv) (facts : List FactRow)
    (hpairs : odPairsUnique E.ods)
    (hsks : (E.prods.map (fun p => p.sk)).Nodup)
    (horders : (E.orders.map (fun o => o.order_id)).Nodup) :
    (∀ r ∈ insertPass E facts,
      ∃ od ∈ E.ods, ∃ o ∈ E.orders, o.order_id = od.order_id ∧
        resolveCliente E.clientes o.customer_id = some r.sk_cliente ∧
        resolveProducto E.prods od.product_id = some r.sk_producto ∧
        resolveTiempo E.tiempos o.order_date = some r.sk_tiempo ∧
        (¬∃ f ∈ facts, f.nk_orden_id = od.order_id ∧ f.sk_producto = r.sk_producto) ∧
        r.precio_unitario = od.unit_price ∧ r.cantidad = od.quantity ∧
        r.descuento = od.discount ∧
        r.monto_total = od.unit_price * od.quantity * (1 - od.discount) ∧
        r.nk_orden_id = od.order_id) ∧
    (∀ od ∈ E.ods, ∀ o ∈ E.orders, o.order_id = od.order_id →
      ∀ skc skp skt,
        resolveCliente E.clientes o.customer_id = some skc →
        resolveProducto E.prods od.product_id = some skp →
        resolveTiempo E.tiempos o.order_date = some skt →
        (¬∃ f ∈ facts, f.nk_orden_id = od.order_id ∧ f.sk_producto = skp) →
        mkFactRow od o skc skp skt (resolveEmpleado E.empleados o.employee_id)
          (resolveGeografia E.geos o) (resolveShipper E.shippers o.ship_via) ∈
          insertPass E facts) ∧
    (∀ od ∈ E.ods, ∀ skp, resolveProducto E.prods od.product_id = some skp →
      ∀ o ∈ E.orders, o.order_id = od.order_id →
      (resolveCliente E.clientes o.customer_id = none ∨
        resolveTiempo E.tiempos o.order_date = none) →
      ∀ r ∈ insertPass E facts,
        ¬(r.nk_orden_id = od.order_id ∧ r.sk_producto = skp)) := by
  refine ⟨?_, ?_, ?_⟩
  · intro r hr
    rcases insertRows_mem_spec (mem_dedupSeen.mp hr).1 with
      ⟨od, hod, o, hfind, skp, skc, skt, hskp, hskc, hskt, hany, hreq⟩
    have ho : o ∈ E.orders := List.mem_of_find?_eq_some hfind
    have hoid : o.order_id = od.order_id := by
      have := List.find?_some hfind
      simpa using this
    refine ⟨od, hod, o, ho, hoid, ?_⟩
    have hc : r.sk_cliente = skc := by rw [hreq]; rfl
    have hp : r.sk_producto = skp := by rw [hreq]; rfl
    have ht : r.sk_tiempo = skt := by rw [hreq]; rfl
    rw [hc, hp, ht]
    refine ⟨hskc, hskp, hskt, ?_, by rw [hreq]; rfl, by rw [hreq]; rfl,
      by rw [hreq]; rfl, by rw [hreq]; rfl, by rw [hreq, ← hoid]; rfl⟩
    rintro ⟨f, hf, hfk, hfp⟩
    have hnof := List.any_eq_false.mp hany f hf
    apply hnof
    simp [hfk, hoid, hfp]
  · intro od hod o ho hoid skc skp skt hskc hskp hskt hnof
    apply mem_dedupSeen.mpr
    refine ⟨?_, List.not_mem_nil _⟩
    apply insertRows_mem_intro hod ?_ hskp hskc hskt ?_
    · simp only [← hoid]
      exact find?_key_eq (fun x => x.order_id) E.orders horders o ho
    · apply List.any_eq_false.mpr
      intro f hf hb
      simp only [Bool.and_eq_true, beq_iff_eq] at hb
      exact hnof ⟨f, hf, by rw [hb.1, hoid], hb.2⟩
  · intro od hod skp hskp o ho hoid hfail r hr
    rintro ⟨hrnk, hrsk⟩
    rcases insertRows_mem_spec (mem_dedupSeen.mp hr).1 with
      ⟨od', hod', o', hfind', skp', skc', skt', hskp', hskc', hskt', hany', hreq'⟩
    have ho' : o' ∈ E.orders := List.mem_of_find?_eq_some hfind'
    have hoid' : o'.order_id = od'.order_id := by
      have := List.find?_some hfind'
      simpa using this
    have hrnk' : r.nk_orden_id = o'.order_id := by rw [hreq']; rfl
    have hrsk' : r.sk_producto = skp' := by rw [hreq']; rfl
    have hskpeq : skp' = skp := by rw [← hrsk', hrsk]
    rcases Option.map_eq_some'.mp hskp' with ⟨q', hq'f, hq's⟩
    rcases Option.map_eq_some'.mp hskp with ⟨q0, hq0f, hq0s⟩
    have hq'mem : q' ∈ E.prods := List.mem_of_find?_eq_some hq'f
    have hq0mem : q0 ∈ E.prods := List.mem_of_find?_eq_some hq0f
    have hq'nk : q'.nk = od'.product_id := by
      have := List.find?_some hq'f
      simpa using this
    have hq0nk : q0.nk = od.product_id := by
      have := List.find?_some hq0f
      simpa using this
    have hqq : q' = q0 :=
      List.inj_on_of_nodup_map hsks hq'mem hq0mem (by rw [hq's, hq0s, hskpeq])
    have hodod : od' = od := by
      apply hpairs od' hod' od hod
      · rw [← hoid', ← hrnk', hrnk]
      · rw [← hq'nk, hqq, hq0nk]
    have hooeq : o' = o :=
      List.inj_on_of_nodup_map horders ho' ho
        (by rw [hoid', hodod, hoid])
    rcases hfail with hfail | hfail
    · rw [hooeq] at hskc'
      rw [hfail] at hskc'
      exact Option.noConfusion hskc'
    · rw [hooeq] at hskt'
      rw [hfail] at hskt'
      exact Option.noConfusion hskt'

/-- C5 (corrected): in the fact reconciler's insert pass, a delta order line
whose customer, product, or time dimension lookup fails to resolve
contributes no inserted fact row (it is silently dropped), and a delta line
whose `(order id, product)` pair has no fact row and whose customer, product
and time lookups succeed is inserted with the resolved surrogate keys, the
delta's measures and the computed total amount — provided every candidate
row also resolves its employee, geography and shipper lookups.  Those fact
columns are declared NOT NULL (step_05), so the hypothesis `hok` is exactly
the condition under which the `INSERT` raises no `IntegrityError`: under it
the transaction commits and the fact table becomes the updated rows followed
by the inserted candidate rows, every one of them with all NOT NULL keys
resolved.  Without it the transaction rolls back and inserts nothing — see
the counterexample refuting the unconditional original reading.  Other
hypotheses: the delta line keys, the product surrogate keys and the delta
order ids are unique (their source primary keys). -/
theorem c5_insert_pass_drops_and_inserts
    (E : FactEnv) (facts : List FactRow)
    (hpairs : odPairsUnique E.ods)
    (hsks : (E.prods.map (fun p => p.sk)).Nodup)
    (horders : (E.orders.map (fun o => o.order_id)).Nodup)
    (hok : (insertPass E (updatePass E facts)).all factRowNotNullOk = true) :
    update_fact_ventas E facts =
      updatePass E facts ++ insertPass E (updatePass E facts) ∧
    (∀ r ∈ insertPass E (updatePass E facts), factRowNotNullOk r = true) ∧
    (∀ r ∈ insertPass E (updatePass E facts),
      ∃ od ∈ E.ods, ∃ o ∈ E.orders, o.order_id = od.order_id ∧
        resolveCliente E.clientes o.customer_id = some r.sk_cliente ∧
        resolveProducto E.prods od.product_id = some r.sk_producto ∧
        resolveTiempo E.tiempos o.order_date = some r.sk_tiempo ∧
        (¬∃ f ∈ updatePass E facts,
          f.nk_orden_id = od.order_id ∧ f.sk_producto = r.sk_producto) ∧
        r.precio_unitario = od.unit_price ∧ r.cantidad = od.quantity ∧
        r.descuento = od.discount ∧
        r.monto_total = od.unit_price * od.quantity * (1 - od.discount) ∧
        r.nk_orden_id = od.order_id) ∧
    (∀ od ∈ E.ods, ∀ o ∈ E.orders, o.order_id = od.order_id →
      ∀ skc skp skt,
        resolveCliente E.clientes o.customer_id = some skc →
        resolveProducto E.prods od.product_id = some skp →
        resolveTiempo E.tiempos o.order_date = some skt →
        (¬∃ f ∈ updatePass E facts,
          f.nk_orden_id = od.order_id ∧ f.sk_producto = skp) →
        mkFactRow od o skc skp skt (resolveEmpleado E.empleados o.employee_id)
          (resolveGeografia E.geos o) (resolveShipper E.shippers o.ship_via) ∈
          insertPass E (updatePass E facts)) ∧
    (∀ od ∈ E.ods, ∀ skp, resolveProducto E.prods od.product_id = some skp →
      ∀ o ∈ E.orders, o.order_id = od.order_id →
      (resolveCliente E.clientes o.customer_id = none ∨
        resolveTiempo E.tiempos o.order_date = none) →
      ∀ r ∈ insertPass E (updatePass E facts),
        ¬(r.nk_orden_id = od.order_id ∧ r.sk_producto = skp)) := by
  have h := insertPass_spec E (updatePass E facts) hpairs hsks horders
  refine ⟨?_, ?_, h.1, h.2.1, h.2.2⟩
  · unfold update_fact_ventas
    dsimp only
    rw [if_pos hok]
  · intro r hr
    exact List.all_eq_true.mp hok r hr

theorem map_id_of_forall {α : Type} (l : List α) (f : α → α) (h : ∀ a ∈ l, f a = a) :
    l.map f = l := by
  induction l with
  | nil => rfl
  | cons a as ih =>
      simp only [List.map_cons]
      rw [h a (List.mem_cons_self ..), ih (fun b hb => h b (List.mem_cons_of_mem _ hb))]

theorem updateFactRow_fixes_inserted (E : FactEnv)
    (hpairs : odPairsUnique E.ods)
    (hsks : (E.prods.map (fun p => p.sk)).Nodup)
    {facts : List FactRow} {r : FactRow} (hr : r ∈ insertRows E facts) :
    updateFactRow E r = r := by
  rcases insertRows_mem_spec hr with
    ⟨od, hod, o, hfind, skp, skc, skt, hskp, hskc, hskt, hany, hreq⟩
  have hoid : o.order_id = od.order_id := by
    have := List.find?_some hfind
    simpa using this
  rcases Option.map_eq_some'.mp hskp with ⟨q0, hq0f, hq0s⟩
  have hq0mem : q0 ∈ E.prods := List.mem_of_find?_eq_some hq0f
  have hq0nk : q0.nk = od.product_id := by
    have := List.find?_some hq0f
    simpa using this
  have hmatch : deltaMatch E r = some od := by
    have h1 : od.order_id = r.nk_orden_id := by
      rw [hreq]
      show od.order_id = o.order_id
      exact hoid.symm
    have h3 : q0.sk = r.sk_producto := by
      rw [hreq]
      show q0.sk = skp
      exact hq0s
    exact deltaMatch_unique E.ods E.prods hpairs hsks hod hq0mem h1 hq0nk.symm h3
  have hstep : updateFactRow E r =
      { r with
        cantidad := od.quantity
        precio_unitario := od.unit_price
        descuento := od.discount
        monto_total := od.unit_price * od.quantity * (1 - od.discount) } := by
    unfold updateFactRow
    rw [hmatch]
  rw [hstep, hreq]
  rfl

theorem insertRows_second_empty (E : FactEnv) (facts : List FactRow) :
    insertRows E (updatePass E
      (updatePass E facts ++ insertPass E (updatePass E facts))) = [] := by
  apply List.filterMap_eq_nil_iff.mpr
  intro od hod
  cases h1 : E.orders.find? (fun x => x.order_id == od.order_id) with
  | none => simp [h1]
  | some o =>
    cases h2 : resolveProducto E.prods od.product_id with
    | none => simp [h1, h2]
    | some skp =>
      cases h3 : resolveCliente E.clientes o.customer_id with
      | none => simp [h1, h2, h3]
      | some skc =>
        cases h4 : resolveTiempo E.tiempos o.order_date with
        | none => simp [h1, h2, h3, h4]
        | some skt =>
          have hany : ((updatePass E
              (updatePass E facts ++ insertPass E (updatePass E facts))).any
              (fun f => f.nk_orden_id == o.order_id && f.sk_producto == skp)) = true := by
            apply List.any_eq_true.mpr
            cases hg : (updatePass E facts).any
                (fun f => f.nk_orden_id == o.order_id && f.sk_producto == skp) with
            | true =>
                obtain ⟨f, hf, hfb⟩ := List.any_eq_true.mp hg
                refine ⟨updateFactRow E f, List.mem_map_of_mem _ ?_, ?_⟩
                · exact List.mem_append_left _ hf
                · simpa [updateFactRow_nk, updateFactRow_skp] using hfb
            | false =>
                have hrmem := insertRows_mem_intro hod h1 h2 h3 h4 hg
                have hrded : mkFactRow od o skc skp skt
                    (resolveEmpleado E.empleados o.employee_id)
                    (resolveGeografia E.geos o) (resolveShipper E.shippers o.ship_via) ∈
                    insertPass E (updatePass E facts) :=
                  mem_dedupSeen.mpr ⟨hrmem, List.not_mem_nil _⟩
                refine ⟨updateFactRow E (mkFactRow od o skc skp skt
                    (resolveEmpleado E.empleados o.employee_id)
                    (resolveGeografia E.geos o) (resolveShipper E.shippers o.ship_via)),
                  List.mem_map_of_mem _ (List.mem_append_right _ hrded), ?_⟩
                simp [updateFactRow_nk, updateFactRow_skp, mkFactRow]
          simp [h1, h2, h3, h4, hany]

/-- C6: running the fact reconciler a second time against the same unchanged
delta and dimension state is idempotent — the second run inserts no
additional fact rows and changes no measure values, the recomputed
`monto_total` from the unchanged unit price, quantity and discount being the
same value: the fact table after the second run equals the fact table after
the first.  This holds on both transaction outcomes: after a committing
first run the second run's update pass rewrites every row to itself and its
`NOT EXISTS` guard blocks every insert; an aborted first run leaves the
table untouched and the second run aborts identically.  Hypotheses: delta
line keys and product surrogate keys are unique. -/
theorem c6_fact_reconciler_idempotent
    (E : FactEnv) (facts : List FactRow)
    (hpairs : odPairsUnique E.ods)
    (hsks : (E.prods.map (fun p => p.sk)).Nodup) :
    update_fact_ventas E (update_fact_ventas E facts) = update_fact_ventas E facts := by
  by_cases hok : (insertPass E (updatePass E facts)).all factRowNotNullOk = true
  · have hfirst : update_fact_ventas E facts =
        updatePass E facts ++ insertPass E (updatePass E facts) := by
      unfold update_fact_ventas
      dsimp only
      rw [if_pos hok]
    have hupd : updatePass E (updatePass E facts ++ insertPass E (updatePass E facts)) =
        updatePass E facts ++ insertPass E (updatePass E facts) := by
      show (updatePass E facts ++ insertPass E (updatePass E facts)).map (updateFactRow E) =
        updatePass E facts ++ insertPass E (updatePass E facts)
      rw [List.map_append]
      have h1 : (updatePass E facts).map (updateFactRow E) = updatePass E facts :=
        map_id_of_forall _ _ (fun a ha => by
          rcases List.mem_map.mp ha with ⟨b, _, hb⟩
          rw [← hb]
          exact updateFactRow_idem E b)
      have h2 : (insertPass E (updatePass E facts)).map (updateFactRow E) =
          insertPass E (updatePass E facts) :=
        map_id_of_forall _ _ (fun a ha =>
          updateFactRow_fixes_inserted E hpairs hsks (mem_dedupSeen.mp ha).1)
      rw [h1, h2]
    have hins0 : insertPass E (updatePass E
        (updatePass E facts ++ insertPass E (updatePass E facts))) = [] := by
      show dedupSeen [] (insertRows E (updatePass E
        (updatePass E facts ++ insertPass E (updatePass E facts)))) = []
      rw [insertRows_second_empty E facts]
      rfl
    rw [hfirst]
    unfold update_fact_ventas
    dsimp only
    rw [hins0,
      if_pos (show (([] : List FactRow).all factRowNotNullOk = true) from rfl),
      List.append_nil]
    exact hupd
  · have hfirst : update_fact_ventas E facts = facts := by
      unfold update_fact_ventas
      dsimp only
      rw [if_neg hok]
    rw [hfirst]
    exact hfirst

/-- Concrete product dimension row for the insert-pass witness
(product 77, surrogate key 11). -/
def prod5 : ProductoRow := ⟨11, 77⟩

/-- Concrete delta order line for order 6002, product 77 (spec Scenario 5). -/
def od5 : OrderDetail :=
  { order_id := 6002, product_id := 77, unit_price := 10, quantity := 2, discount := 0 }

/-- Concrete delta order header for order 6002, with every dimension lookup
resolvable (spec Scenario 5: all dimension lookups succeed). -/
def ord5 : Tmp2Order :=
  { order_id := 6002
    customer_id := some "ALFKI"
    employee_id := some 3
    order_date := some ⟨2024, 5, 1⟩
    shipped_date := none
    ship_via := some 2
    freight := some 3
    ship_address := some "Obere Str. 57"
    ship_city := some "Berlin"
    ship_region := none
    ship_postal_code := none
    ship_country := some "Germany" }

/-- Concrete time dimension row for 2024-05-01 (surrogate key 42). -/
def tiempo5 : TiempoRow := ⟨42, ⟨2024, 5, 1⟩⟩

/-- Concrete employee dimension row (employee 3, surrogate key 7). -/
def emp5 : EmpleadoRow := ⟨7, 3⟩

/-- Concrete geography dimension row matching `ord5`'s shipping address
(surrogate key 9). -/
def geo5 : GeografiaRow := ⟨9, some "Obere Str. 57", some "Berlin", some "Germany"⟩

/-- Concrete shipper dimension row (shipper 2, surrogate key 4). -/
def ship5 : ShipperRow := ⟨4, 2⟩

/-- Concrete fact environment for the insert-pass and idempotence
witnesses: every dimension lookup of `ord5`/`od5` resolves, so the insert
candidate satisfies the fact table's NOT NULL constraints and the
transaction commits. -/
def factEnv5 : FactEnv :=
  { ods := [od5]
    orders := [ord5]
    prods := [prod5]
    clientes := [scdRow0]
    empleados := [emp5]
    tiempos := [tiempo5]
    geos := [geo5]
    shippers := [ship5] }

theorem c5_insert_pass_drops_and_inserts_witness :
    (insertPass factEnv5 (updatePass factEnv5 [])).all factRowNotNullOk = true ∧
    mkFactRow od5 ord5 1 11 42 (some 7) (some 9) (some 4) ∈
      insertPass factEnv5 (updatePass factEnv5 []) :=
  ⟨by decide,
   (c5_insert_pass_drops_and_inserts factEnv5 []
      (fun a ha b hb _ _ => by rw [List.mem_singleton.mp ha, List.mem_singleton.mp hb])
      (by decide) (by decide) (by decide)).2.2.2.1
      od5 (List.mem_singleton.mpr rfl)
      ord5 (List.mem_singleton.mpr rfl) rfl
      1 11 42 (by decide) (by decide) (by decide) (by simp [updatePass])⟩

/-- Delta order line for order 6003, product 77: the abort
counterexample's line. -/
def c5odAbort : OrderDetail :=
  { order_id := 6003, product_id := 77, unit_price := 10, quantity := 2, discount := 0 }

/-- Order 6003's header: customer, product and time resolve, but the
employee, geography and shipper lookups all fail (NULL employee id, no
matching geography, NULL ship_via). -/
def c5ordAbort : Tmp2Order :=
  { order_id := 6003
    customer_id := some "ALFKI"
    employee_id := none
    order_date := some ⟨2024, 5, 1⟩
    shipped_date := none
    ship_via := none
    freight := some 3
    ship_address := none
    ship_city := none
    ship_region := none
    ship_postal_code := none
    ship_country := none }

/-- Fact environment of the abort counterexample: the employee, geography
and shipper dimensions are empty, so the only candidate row carries NULL in
three NOT NULL fact columns. -/
def c5envAbort : FactEnv :=
  { ods := [c5odAbort]
    orders := [c5ordAbort]
    prods := [prod5]
    clientes := [scdRow0]
    empleados := []
    tiempos := [tiempo5]
    geos := []
    shippers := [] }

/-- C5 counterexample to the unconditional original reading: a delta line
whose customer, product and time lookups all succeed and whose
`(order id, product)` pair has no fact row, yet whose employee lookup fails.
The candidate row violates the NOT NULL constraints of `DWA_FACT_Ventas`,
the `INSERT` raises `IntegrityError`, the transaction rolls back, and the
fact table stays empty — the line is NOT inserted. -/
theorem c5_not_null_abort_counterexample :
    resolveCliente c5envAbort.clientes c5ordAbort.customer_id = some 1 ∧
    resolveProducto c5envAbort.prods c5odAbort.product_id = some 11 ∧
    resolveTiempo c5envAbort.tiempos c5ordAbort.order_date = some 42 ∧
    resolveEmpleado c5envAbort.empleados c5ordAbort.employee_id = none ∧
    (insertPass c5envAbort (updatePass c5envAbort [])).all factRowNotNullOk = false ∧
    update_fact_ventas c5envAbort [] = [] :=
  ⟨by decide, by decide, by decide, rfl, by decide, by decide⟩

theorem c6_fact_reconciler_idempotent_witness :
    update_fact_ventas factEnv5 (update_fact_ventas factEnv5 []) =
      update_fact_ventas factEnv5 [] :=
  c6_fact_reconciler_idempotent factEnv5 []
    (fun a ha b hb _ _ => by rw [List.mem_singleton.mp ha, List.mem_singleton.mp hb])
    (by decide)

/-- Python exception kinds that the remediation call chain can see. -/
inductive PyErr where
  | typeError
  | attributeError
  | operationalError (retryable : Bool)
deriving DecidableEq, Repr

/-- Row of the `TMP_customers` staging table (step_01 schema), restricted to
the columns `advanced_geographic_remediation` and
`advanced_contact_data_remediation` read or write; `country`, `city`,
`region` and `fax` are all nullable. -/
structure TmpCustomer where
  customer_id : String
  country : Option String
  city : Option String
  region : Option String
  fax : Option String
deriving DecidableEq, Repr

/-- Row of the `TMP_suppliers` staging table, restricted to the columns the
remediation touches. -/
structure TmpSupplier where
  supplier_id : Nat
  company_name : Option String
  country : Option String
  city : Option String
  region : Option String
  fax : Option String
  home_page : Option String
deriving DecidableEq, Repr

/-- Row of the `TMP_employees` staging table, restricted to the columns the
remediation touches. -/
structure TmpEmployee where
  employee_id : Nat
  country : Option String
  city : Option String
  region : Option String
deriving DecidableEq, Repr

/-- Row of the `TMP_orders` staging table, restricted to the columns the
ship-region propagation touches. -/
structure TmpOrder where
  order_id : Nat
  customer_id : Option String
  ship_region : Option String
deriving DecidableEq, Repr

/-- Row of the `TMP_world_data_2023` reference table, restricted to the
columns the remediation reads or writes. -/
structure WorldRow where
  country : Option String
  largest_city : Option String
  gdp : Option Rat
  minimum_wage : Option Rat
deriving DecidableEq, Repr

/-- Database state visible to the remediation operations of
`data_remediation_utils.py`. -/
structure RemState where
  dimClientes : List ClienteRow
  tmp2Customers : List Tmp2Customer
  tmp2Orders : List Tmp2Order
  tmpCustomers : List TmpCustomer
  tmpSuppliers : List TmpSupplier
  tmpEmployees : List TmpEmployee
  tmpOrders : List TmpOrder
  tmpWorld : List WorldRow
deriving DecidableEq, Repr

/-- The counters of the `RemediationStats` class. -/
structure RemediationStats where
  scd2_fixes : Nat
  region_fixes : Nat
  shipping_fixes : Nat
  null_geographic_fixes : Nat
  null_contact_fixes : Nat
  world_data_fixes : Nat
  pattern_based_fixes : Nat
  fuzzy_match_fixes : Nat
  total_issues_detected : Nat
  total_issues_resolved : Nat
deriving DecidableEq, Repr

/-- A freshly constructed `RemediationStats()`. -/
def emptyStats : RemediationStats :=
  ⟨0, 0, 0, 0, 0, 0, 0, 0, 0, 0⟩

/-- Parameter list of `quality_utils.log_quality_metric` as defined in the
repository (lines 280-287 of `quality_utils.py`): `execution_id,
nombre_indicador, entidad_asociada, resultado, detalles, severidad` — there
is no `conn` parameter. -/
def logQualityMetricParams : List String :=
  ["execution_id", "nombre_indicador", "entidad_asociada", "resultado", "detalles",
   "severidad"]

/-- Python keyword-argument binding: a call whose keyword names are not all
parameters of the callee raises `TypeError` before the body runs.  A
binding-valid call to `log_quality_metric` returns normally (its body
swallows its own failures per the metric-sink contract) and writes only the
DQM tables, which are outside the modelled data state. -/
def callWithKwargs (params : List String) (kwargs : List String) : Except PyErr Unit :=
  if kwargs.all (fun k => params.contains k) then Except.ok () else Except.error PyErr.typeError

/-- The keyword names used by every in-transaction metric call of
`data_remediation_utils.py`: they all pass `conn=conn` in addition to the
five documented keywords. -/
def logKwargsConn : List String :=
  ["execution_id", "nombre_indicador", "entidad_asociada", "resultado", "detalles", "conn"]

/-- One `log_quality_metric(..., conn=conn)` call as issued inside the retry
closures of `data_remediation_utils.py`. -/
def logQualityMetricCall : Except PyErr Unit :=
  callWithKwargs logQualityMetricParams logKwargsConn

/-- Lift a metric call into a transaction: on an exception, the transaction
context is lost and the database reverts to `committed` (the closure's
`finally: conn.close()` rolls back whatever was not committed). -/
def logConn (committed : RemState) : Except (PyErr × RemState) Unit :=
  match logQualityMetricCall with
  | Except.ok u => Except.ok u
  | Except.error e => Except.error (e, committed)
/-- The static country-to-region table `COUNTRY_TO_REGION_MAPPING` of
`data_remediation_utils.py` (lines 23-90), in its insertion order, which is
the iteration order of the Python dict used by the fuzzy pass. -/
def COUNTRY_TO_REGION_MAPPING : List (String × String) := [
  ("USA", "North America"),
  ("United States", "North America"),
  ("US", "North America"),
  ("Canada", "North America"),
  ("Mexico", "North America"),
  ("Germany", "Western Europe"),
  ("France", "Western Europe"),
  ("Spain", "Western Europe"),
  ("Italy", "Western Europe"),
  ("UK", "Western Europe"),
  ("United Kingdom", "Western Europe"),
  ("Netherlands", "Western Europe"),
  ("Belgium", "Western Europe"),
  ("Switzerland", "Western Europe"),
  ("Austria", "Western Europe"),
  ("Portugal", "Western Europe"),
  ("Ireland", "Western Europe"),
  ("Denmark", "Western Europe"),
  ("Norway", "Western Europe"),
  ("Sweden", "Western Europe"),
  ("Finland", "Western Europe"),
  ("Luxembourg", "Western Europe"),
  ("Poland", "Eastern Europe"),
  ("Czech Republic", "Eastern Europe"),
  ("Hungary", "Eastern Europe"),
  ("Slovakia", "Eastern Europe"),
  ("Slovenia", "Eastern Europe"),
  ("Croatia", "Eastern Europe"),
  ("Estonia", "Eastern Europe"),
  ("Latvia", "Eastern Europe"),
  ("Lithuania", "Eastern Europe"),
  ("Romania", "Eastern Europe"),
  ("Bulgaria", "Eastern Europe"),
  ("Serbia", "Eastern Europe"),
  ("Bosnia and Herzegovina", "Eastern Europe"),
  ("Montenegro", "Eastern Europe"),
  ("North Macedonia", "Eastern Europe"),
  ("Albania", "Eastern Europe"),
  ("Moldova", "Eastern Europe"),
  ("Ukraine", "Eastern Europe"),
  ("Belarus", "Eastern Europe"),
  ("Russia", "Eastern Europe"),
  ("Brazil", "South America"),
  ("Argentina", "South America"),
  ("Chile", "South America"),
  ("Colombia", "South America"),
  ("Peru", "South America"),
  ("Venezuela", "South America"),
  ("Ecuador", "South America"),
  ("Bolivia", "South America"),
  ("Paraguay", "South America"),
  ("Uruguay", "South America"),
  ("Guyana", "South America"),
  ("Suriname", "South America"),
  ("French Guiana", "South America"),
  ("China", "Asia"),
  ("Japan", "Asia"),
  ("India", "Asia"),
  ("South Korea", "Asia"),
  ("Thailand", "Asia"),
  ("Indonesia", "Asia"),
  ("Malaysia", "Asia"),
  ("Singapore", "Asia"),
  ("Philippines", "Asia"),
  ("Vietnam", "Asia"),
  ("Taiwan", "Asia"),
  ("Hong Kong", "Asia"),
  ("Pakistan", "Asia"),
  ("Bangladesh", "Asia"),
  ("Sri Lanka", "Asia"),
  ("Myanmar", "Asia"),
  ("Cambodia", "Asia"),
  ("Laos", "Asia"),
  ("Mongolia", "Asia"),
  ("Nepal", "Asia"),
  ("Bhutan", "Asia"),
  ("Maldives", "Asia"),
  ("Brunei", "Asia"),
  ("Turkey", "Middle East"),
  ("Iran", "Middle East"),
  ("Iraq", "Middle East"),
  ("Saudi Arabia", "Middle East"),
  ("UAE", "Middle East"),
  ("Kuwait", "Middle East"),
  ("Qatar", "Middle East"),
  ("Bahrain", "Middle East"),
  ("Oman", "Middle East"),
  ("Yemen", "Middle East"),
  ("Jordan", "Middle East"),
  ("Lebanon", "Middle East"),
  ("Syria", "Middle East"),
  ("Israel", "Middle East"),
  ("Palestine", "Middle East"),
  ("Cyprus", "Middle East"),
  ("Afghanistan", "Middle East"),
  ("Australia", "Oceania"),
  ("New Zealand", "Oceania"),
  ("Fiji", "Oceania"),
  ("Papua New Guinea", "Oceania"),
  ("Solomon Islands", "Oceania"),
  ("Vanuatu", "Oceania"),
  ("Samoa", "Oceania"),
  ("Tonga", "Oceania"),
  ("Kiribati", "Oceania"),
  ("Tuvalu", "Oceania"),
  ("Palau", "Oceania"),
  ("Marshall Islands", "Oceania"),
  ("Micronesia", "Oceania"),
  ("Nauru", "Oceania"),
  ("Cook Islands", "Oceania"),
  ("South Africa", "Africa"),
  ("Egypt", "Africa"),
  ("Nigeria", "Africa"),
  ("Kenya", "Africa"),
  ("Ghana", "Africa"),
  ("Morocco", "Africa"),
  ("Tunisia", "Africa"),
  ("Algeria", "Africa"),
  ("Libya", "Africa"),
  ("Sudan", "Africa"),
  ("Ethiopia", "Africa"),
  ("Tanzania", "Africa"),
  ("Uganda", "Africa"),
  ("Zambia", "Africa"),
  ("Zimbabwe", "Africa"),
  ("Botswana", "Africa"),
  ("Namibia", "Africa"),
  ("Angola", "Africa"),
  ("Mozambique", "Africa"),
  ("Madagascar", "Africa"),
  ("Mauritius", "Africa"),
  ("Seychelles", "Africa"),
  ("Ivory Coast", "Africa"),
  ("Senegal", "Africa"),
  ("Mali", "Africa"),
  ("Burkina Faso", "Africa"),
  ("Niger", "Africa"),
  ("Chad", "Africa"),
  ("Cameroon", "Africa"),
  ("Central African Republic", "Africa"),
  ("Democratic Republic of the Congo", "Africa"),
  ("Republic of the Congo", "Africa"),
  ("Gabon", "Africa"),
  ("Equatorial Guinea", "Africa"),
  ("Sao Tome and Principe", "Africa"),
  ("Cape Verde", "Africa"),
  ("Guinea-Bissau", "Africa"),
  ("Guinea", "Africa"),
  ("Sierra Leone", "Africa"),
  ("Liberia", "Africa"),
  ("Gambia", "Africa"),
  ("Rwanda", "Africa"),
  ("Burundi", "Africa"),
  ("Djibouti", "Africa"),
  ("Somalia", "Africa"),
  ("Eritrea", "Africa"),
  ("Comoros", "Africa"),
  ("Malawi", "Africa"),
  ("Lesotho", "Africa"),
  ("Swaziland", "Africa"),
  ("Eswatini", "Africa")]

/-- The scan predicate `region IS NULL OR region = ''` used by every
region-remediation query. -/
def isNullOrEmpty : Option String → Bool
  | none => true
  | some s => s == ""

/-- Python `COUNTRY_TO_REGION_MAPPING.get(x)`: `None` is not a key. -/
def mappingGet (country : Option String) : Option String :=
  country.bind (fun c =>
    (COUNTRY_TO_REGION_MAPPING.find? (fun kv => kv.1 == c)).map (fun kv => kv.2))

/-- Python `COUNTRY_TO_REGION_MAPPING.get(x, dflt)`. -/
def mappingGetD (country : Option String) (dflt : String) : String :=
  (mappingGet country).getD dflt

/-- Python's `needle in hay` substring test. -/
def substrB (needle hay : String) : Bool :=
  (List.range (hay.toList.length + 1)).any
    (fun i => needle.toList.isPrefixOf (hay.toList.drop i))

/-- SQL `UPPER(col) LIKE '%pat%'` with `pat` already upper-cased: a NULL
column matches nothing. -/
def likeSubstr (pat : String) (v : Option String) : Bool :=
  match v with
  | none => false
  | some s => substrB pat s.toUpper

/-- The inference method recorded by `advanced_geographic_remediation` for a
customer row. -/
inductive GeoMethod where
  | directMapping
  | fuzzyMatching
  | worldDataEnrichment
  | defaultAssignment
deriving DecidableEq, Repr

/-- The fuzzy pass of `advanced_geographic_remediation` (lines 509-517):
first mapping entry, in dict order, whose key is a substring of the upper-
cased country or vice versa. -/
def fuzzyLookup (c : String) : Option String :=
  (COUNTRY_TO_REGION_MAPPING.find? (fun kv =>
    substrB kv.1.toUpper c.toUpper || substrB c.toUpper kv.1.toUpper)).map (fun kv => kv.2)

/-- The region-inference cascade run for every `TMP_customers` row with a
null/empty region (`advanced_geographic_remediation`, lines 503-537), in
strict priority order with short-circuiting: (1) direct dictionary lookup;
(2) fuzzy substring match (only for a truthy country); (3) cross-reference of
`TMP_world_data_2023` by country or city substring — the code reaches
`country.upper()` here, so a row whose country is NULL raises
`AttributeError` instead of falling through; (4) the fixed fallback label
`"International Region"`. -/
def inferRegionCustomer (country city : Option String) (world : List WorldRow) :
    Except PyErr (String × GeoMethod) :=
  match mappingGet country with
  | some r => Except.ok (r, GeoMethod.directMapping)
  | none =>
    match (match country with
           | some c => if c == "" then none else fuzzyLookup c
           | none => none) with
    | some r => Except.ok (r, GeoMethod.fuzzyMatching)
    | none =>
      match country with
      | none => Except.error PyErr.attributeError
      | some c =>
        let cityU := match city with
          | some ct => if ct == "" then "" else ct.toUpper
          | none => ""
        match world.find? (fun w =>
            likeSubstr c.toUpper w.country || likeSubstr cityU w.largest_city) with
        | some w =>
            Except.ok (mappingGetD w.country "Global Region", GeoMethod.worldDataEnrichment)
        | none => Except.ok ("International Region", GeoMethod.defaultAssignment)

/-- Rows found by the temporal-defect query of `fix_scd2_temporal_logic`
(lines 147-151): `fecha_inicio_validez > fecha_fin_validez`, a TEXT
comparison of ISO dates in which a NULL end date is never selected. -/
def temporalDefects (dim : List ClienteRow) : List ClienteRow :=
  dim.filter (fun d =>
    match d.fecha_fin with
    | some fin => decide (fin.key < d.fecha_inicio.key)
    | none => false)

/-- The per-record fix loop of `fix_scd2_temporal_logic` (lines 168-192):
set `fecha_fin_validez` to `fecha_inicio_validez + 1 day` for the record's
surrogate key, then emit the per-fix metric with `conn=conn`. -/
def fixTemporalLoop (committed : RemState) :
    List ClienteRow → RemState → Except (PyErr × RemState) RemState
  | [], s => Except.ok s
  | r :: rest, s => do
      let s' := { s with dimClientes := s.dimClientes.map (fun d =>
        if d.sk == r.sk then { d with fecha_fin := some r.fecha_inicio.nextDay } else d) }
      let _ ← logConn committed
      fixTemporalLoop committed rest s'

/-- The retry closure `_fix_temporal_logic` of `fix_scd2_temporal_logic`
(lines 141-211): detect inverted rows; if none, emit the NO_ISSUES metric
(with `conn=conn`) and return; otherwise run the fix loop, commit, then emit
the summary metric (also with `conn=conn`). -/
def fix_scd2_inner (s : RemState) :
    Except (PyErr × RemState) (RemediationStats × RemState) := do
  let problems := temporalDefects s.dimClientes
  if problems.length = 0 then do
    let _ ← logConn s
    Except.ok ({ emptyStats with total_issues_detected := 0 }, s)
  else do
    let s' ← fixTemporalLoop s problems s
    let _ ← logConn s'
    Except.ok ({ emptyStats with
      scd2_fixes := problems.length
      total_issues_detected := problems.length
      total_issues_resolved := problems.length }, s')

/-- The per-customer loop of `resolve_missing_regions` (lines 269-297):
assign the mapped (or `"Unknown Region"`) region in `TMP2_customers` and in
the current `DWA_DIM_Clientes` rows, then emit the per-fix metric with
`conn=conn`. -/
def resolveMissingLoop (committed : RemState) :
    List Tmp2Customer → RemState → Except (PyErr × RemState) (Nat × RemState)
  | [], s => Except.ok (0, s)
  | c :: rest, s => do
      let reg := mappingGetD c.country "Unknown Region"
      let s1 := { s with tmp2Customers := s.tmp2Customers.map (fun x : Tmp2Customer =>
        if x.customer_id == c.customer_id then { x with region := some reg } else x) }
      let s2 := { s1 with dimClientes := s1.dimClientes.map (fun d : ClienteRow =>
        if d.nk == c.customer_id && d.es_vigente then { d with region := some reg }
        else d) }
      let _ ← logConn committed
      let (n, s3) ← resolveMissingLoop committed rest s2
      Except.ok (n + 1, s3)

/-- The retry closure `_resolve_regions` of `resolve_missing_regions`
(lines 242-316). -/
def resolve_missing_regions_inner (s : RemState) :
    Except (PyErr × RemState) (RemediationStats × RemState) := do
  let missing := s.tmp2Customers.filter (fun c => isNullOrEmpty c.region)
  if missing.length = 0 then do
    let _ ← logConn s
    Except.ok ({ emptyStats with total_issues_detected := 0 }, s)
  else do
    let (n, s') ← resolveMissingLoop s missing s
    let _ ← logConn s'
    Except.ok ({ emptyStats with
      region_fixes := n
      total_issues_detected := missing.length
      total_issues_resolved := n }, s')

/-- The order's customer record, looked up by the `LEFT JOIN TMP2_customers c
ON o.customer_id = c.customer_id` of `handle_missing_shipping_data`; a NULL
`customer_id` joins nothing. -/
def shipCustomerOf (cs : List Tmp2Customer) (o : Tmp2Order) : Option Tmp2Customer :=
  o.customer_id.bind (fun cid => cs.find? (fun c => c.customer_id == cid))

/-- The three per-order conditional fixes of `handle_missing_shipping_data`
(lines 381-408): inherit `ship_region` from the customer only when the order
value is NULL and the customer value is non-NULL; likewise
`ship_postal_code`; a NULL `shipped_date` is only flagged, never written.
Returns the fixed order and whether any fix or flag applied
(`fixes_applied` non-empty). -/
def shipFixApply (cs : List Tmp2Customer) (o : Tmp2Order) : Tmp2Order × Bool :=
  let c? := shipCustomerOf cs o
  let creg := c?.bind (fun c => c.region)
  let cpost := c?.bind (fun c => c.postal_code)
  let fix1 := o.ship_region.isNone && creg.isSome
  let o1 := if fix1 then { o with ship_region := creg } else o
  let fix2 := o.ship_postal_code.isNone && cpost.isSome
  let o2 := if fix2 then { o1 with ship_postal_code := cpost } else o1
  (o2, fix1 || fix2 || o.shipped_date.isNone)

/-- The per-order loop of `handle_missing_shipping_data`: apply the
conditional `UPDATE`s by order id, then — only when a fix or flag applied —
emit the per-order metric with `conn=conn`. -/
def shippingLoop (committed : RemState) (cs : List Tmp2Customer) :
    List Tmp2Order → RemState → Except (PyErr × RemState) (Nat × RemState)
  | [], s => Except.ok (0, s)
  | o :: rest, s => do
      let o' := (shipFixApply cs o).1
      let applied := (shipFixApply cs o).2
      let s1 := { s with tmp2Orders := s.tmp2Orders.map (fun x : Tmp2Order =>
        if x.order_id == o.order_id then
          { x with ship_region := o'.ship_region, ship_postal_code := o'.ship_postal_code }
        else x) }
      if applied then do
        let _ ← logConn committed
        let (n, s2) ← shippingLoop committed cs rest s1
        Except.ok (n + 1, s2)
      else do
        let (n, s2) ← shippingLoop committed cs rest s1
        Except.ok (n, s2)

/-- The retry closure `_handle_shipping_data` of `handle_missing_shipping_data`
(lines 348-438): select orders with a NULL ship region, postal code or ship
date; fix each; commit; then emit the summary metric with `conn=conn`. -/
def handle_missing_shipping_inner (s : RemState) :
    Except (PyErr × RemState) (RemediationStats × RemState) := do
  let issues := s.tmp2Orders.filter (fun o =>
    o.ship_region.isNone || o.ship_postal_code.isNone || o.shipped_date.isNone)
  if issues.length = 0 then do
    let _ ← logConn s
    Except.ok ({ emptyStats with total_issues_detected := 0 }, s)
  else do
    let (n, s') ← shippingLoop s s.tmp2Customers issues s
    let _ ← logConn s'
    Except.ok ({ emptyStats with
      shipping_fixes := n
      total_issues_detected := issues.length
      total_issues_resolved := n }, s')

/-- Pure data effect of the `handle_missing_shipping_data` loop on the
orders table, with the metric emissions stripped (the specification treats
the metric sink as a collaborator that never raises).  Faithful to the
per-row `UPDATE ... WHERE order_id = ?` statements when order ids are
unique. -/
def handle_missing_shipping_core (cs : List Tmp2Customer) (os : List Tmp2Order) :
    List Tmp2Order :=
  os.map (fun o =>
    if o.ship_region.isNone || o.ship_postal_code.isNone || o.shipped_date.isNone then
      (shipFixApply cs o).1
    else o)

/-- The per-customer loop of phase 2 of `advanced_geographic_remediation`
(lines 503-556): run the inference cascade, apply the `UPDATE`, then emit the
per-fix metric with `conn=conn`. -/
def geoCustomerLoop (committed : RemState) :
    List TmpCustomer → RemState → Except (PyErr × RemState) (Nat × RemState)
  | [], s => Except.ok (0, s)
  | c :: rest, s =>
      match inferRegionCustomer c.country c.city s.tmpWorld with
      | Except.error e => Except.error (e, committed)
      | Except.ok (reg, _) => do
          let s1 := { s with tmpCustomers := s.tmpCustomers.map (fun x : TmpCustomer =>
            if x.customer_id == c.customer_id then { x with region := some reg } else x) }
          let _ ← logConn committed
          let (n, s2) ← geoCustomerLoop committed rest s1
          Except.ok (n + 1, s2)

/-- The per-supplier loop of phase 3 (lines 568-586): mapped region with
default `"Business Region"`, then the per-fix metric with `conn=conn`. -/
def geoSupplierLoop (committed : RemState) :
    List TmpSupplier → RemState → Except (PyErr × RemState) (Nat × RemState)
  | [], s => Except.ok (0, s)
  | c :: rest, s => do
      let reg := mappingGetD c.country "Business Region"
      let s1 := { s with tmpSuppliers := s.tmpSuppliers.map (fun x : TmpSupplier =>
        if x.supplier_id == c.supplier_id then { x with region := some reg } else x) }
      let _ ← logConn committed
      let (n, s2) ← geoSupplierLoop committed rest s1
      Except.ok (n + 1, s2)

/-- The per-employee loop of phase 4 (lines 596-614): mapped region with
default `"Corporate Region"`, then the per-fix metric with `conn=conn`. -/
def geoEmployeeLoop (committed : RemState) :
    List TmpEmployee → RemState → Except (PyErr × RemState) (Nat × RemState)
  | [], s => Except.ok (0, s)
  | c :: rest, s => do
      let reg := mappingGetD c.country "Corporate Region"
      let s1 := { s with tmpEmployees := s.tmpEmployees.map (fun x : TmpEmployee =>
        if x.employee_id == c.employee_id then { x with region := some reg } else x) }
      let _ ← logConn committed
      let (n, s2) ← geoEmployeeLoop committed rest s1
      Except.ok (n + 1, s2)

/-- Phase 5 of `advanced_geographic_remediation` (lines 618-630): the bulk
`UPDATE TMP_orders SET ship_region = (SELECT c.region ...) WHERE ship_region
IS NULL AND customer_id IN (...)`. -/
def shipRegionPropagate (s : RemState) : RemState :=
  { s with tmpOrders := s.tmpOrders.map (fun o : TmpOrder =>
    let src := (s.tmpCustomers.find? (fun c =>
      optEq (some c.customer_id) o.customer_id && c.region.isSome)).bind (fun c => c.region)
    if o.ship_region.isNone && s.tmpCustomers.any (fun c =>
        optEq (some c.customer_id) o.customer_id && c.region.isSome) then
      { o with ship_region := src }
    else o) }

/-- The retry closure `_advanced_geographic_fix` of
`advanced_geographic_remediation` (lines 473-652).  Phase 1 creates a
`temp_geo_mapping` table that no later statement reads — it has no effect on
the modelled state.  The commit happens after phase 5, and the summary
metric (with `conn=conn`) after the commit. -/
def advanced_geographic_inner (s : RemState) :
    Except (PyErr × RemState) (RemediationStats × RemState) := do
  let missingC := s.tmpCustomers.filter (fun c => isNullOrEmpty c.region)
  let (nc, s1) ← geoCustomerLoop s missingC s
  let missingS := s1.tmpSuppliers.filter (fun c => isNullOrEmpty c.region)
  let (ns, s2) ← geoSupplierLoop s missingS s1
  let missingE := s2.tmpEmployees.filter (fun c => isNullOrEmpty c.region)
  let (ne, s3) ← geoEmployeeLoop s missingE s2
  let s4 := shipRegionPropagate s3
  let _ ← logConn s4
  Except.ok ({ emptyStats with
    null_geographic_fixes := nc + ns + ne
    total_issues_resolved := nc + ns + ne }, s4)

/-- The per-country fax patterns of `CONTACT_DATA_PATTERNS["fax_defaults"]`. -/
def CONTACT_FAX_DEFAULTS : List (String × String) :=
  [("Germany", "+49-XXX-XXXXXXX"), ("USA", "+1-XXX-XXX-XXXX"),
   ("France", "+33-X-XX-XX-XX-XX"), ("UK", "+44-XXX-XXX-XXXX")]

/-- The business-domain suffixes of `CONTACT_DATA_PATTERNS["business_domains"]`. -/
def BUSINESS_DOMAINS : List String :=
  ["company.com", "business.org", "corp.net", "enterprise.biz",
   "trading.com", "suppliers.net", "wholesale.com"]

/-- Fax synthesis: the per-country pattern (default `"+XX-XXX-XXXXXXX"`)
with the machine-generated marker suffix. -/
def genFax (country : Option String) (suffix : String) : String :=
  ((country.bind (fun c =>
    (CONTACT_FAX_DEFAULTS.find? (fun kv => kv.1 == c)).map (fun kv => kv.2))).getD
    "+XX-XXX-XXXXXXX") ++ suffix

/-- The `clean_name` computation of the homepage synthesis (line 723):
lower-case, strip spaces, `&` to `and`, strip dots, first 15 characters; a
falsy company name falls back to `supplier<id>`. -/
def cleanCompanyName (name : Option String) (sid : Nat) : String :=
  match name with
  | some nm =>
      if nm == "" then "supplier" ++ toString sid
      else ((((nm.toLower).replace " " "").replace "&" "and").replace "." "").take 15
  | none => "supplier" ++ toString sid

/-- Phase 1 of `advanced_contact_data_remediation` (lines 683-710): generate
faxes for suppliers without one, each followed by the `conn=conn` metric. -/
def contactFaxSupplierLoop (committed : RemState) :
    List TmpSupplier → RemState → Except (PyErr × RemState) (Nat × RemState)
  | [], s => Except.ok (0, s)
  | c :: rest, s => do
      let fx := genFax c.country " (Generated)"
      let s1 := { s with tmpSuppliers := s.tmpSuppliers.map (fun x : TmpSupplier =>
        if x.supplier_id == c.supplier_id then { x with fax := some fx } else x) }
      let _ ← logConn committed
      let (n, s2) ← contactFaxSupplierLoop committed rest s1
      Except.ok (n + 1, s2)

/-- Phase 2 (lines 713-742): generate homepage URLs for suppliers without
one.  `random.choice` over the business domains is modelled by an arbitrary
choice function `rnd` indexed by the iteration. -/
def contactHomeSupplierLoop (committed : RemState) (rnd : Nat → Nat) :
    Nat → List TmpSupplier → RemState → Except (PyErr × RemState) (Nat × RemState)
  | _, [], s => Except.ok (0, s)
  | i, c :: rest, s => do
      let dom := BUSINESS_DOMAINS.getD (rnd i % BUSINESS_DOMAINS.length) "company.com"
      let url := "http://www." ++ cleanCompanyName c.company_name c.supplier_id ++ "." ++ dom
      let s1 := { s with tmpSuppliers := s.tmpSuppliers.map (fun x : TmpSupplier =>
        if x.supplier_id == c.supplier_id then { x with home_page := some url } else x) }
      let _ ← logConn committed
      let (n, s2) ← contactHomeSupplierLoop committed rnd (i + 1) rest s1
      Except.ok (n + 1, s2)

/-- Phase 3 (lines 745-771): generate faxes for customers without one. -/
def contactFaxCustomerLoop (committed : RemState) :
    List TmpCustomer → RemState → Except (PyErr × RemState) (Nat × RemState)
  | [], s => Except.ok (0, s)
  | c :: rest, s => do
      let fx := genFax c.country " (Auto-generated)"
      let s1 := { s with tmpCustomers := s.tmpCustomers.map (fun x : TmpCustomer =>
        if x.customer_id == c.customer_id then { x with fax := some fx } else x) }
      let _ ← logConn committed
      let (n, s2) ← contactFaxCustomerLoop committed rest s1
      Except.ok (n + 1, s2)

/-- The retry closure `_contact_data_fix` of
`advanced_contact_data_remediation` (lines 677-790): the three generation
loops, the commit, then the summary metric with `conn=conn`. -/
def advanced_contact_inner (rnd : Nat → Nat) (s : RemState) :
    Except (PyErr × RemState) (RemediationStats × RemState) := do
  let noFaxS := s.tmpSuppliers.filter (fun c => isNullOrEmpty c.fax)
  let (n1, s1) ← contactFaxSupplierLoop s noFaxS s
  let noHome := s1.tmpSuppliers.filter (fun c => isNullOrEmpty c.home_page)
  let (n2, s2) ← contactHomeSupplierLoop s rnd 0 noHome s1
  let noFaxC := s2.tmpCustomers.filter (fun c => isNullOrEmpty c.fax)
  let (n3, s3) ← contactFaxCustomerLoop s noFaxC s2
  let _ ← logConn s3
  Except.ok ({ emptyStats with
    null_contact_fixes := n1 + n2 + n3
    total_issues_resolved := n1 + n2 + n3 }, s3)

/-- SQLite `ROUND(x, 2)`; for the non-negative GDP figures this agrees with
rounding half away from zero. -/
def round2 (q : Rat) : Rat :=
  ((round (q * 100) : Int) : Rat) / 100

/-- The `CASE` expression of `world_data_enrichment_remediation`
(lines 812-821): estimate a missing `minimum_wage` from a non-NULL `gdp`. -/
def worldWageUpdate (w : WorldRow) : WorldRow :=
  match w.minimum_wage, w.gdp with
  | none, some g =>
      { w with minimum_wage := some (
        if 50000 < g then round2 (g * (3 / 10000))
        else if 20000 < g then round2 (g * (2 / 10000))
        else if 5000 < g then round2 (g * (1 / 10000))
        else 1) }
  | _, _ => w

/-- The retry closure `_world_data_fix` of
`world_data_enrichment_remediation` (lines 806-841): the bulk `UPDATE`, the
commit, then the summary metric with `conn=conn`. -/
def world_data_inner (s : RemState) :
    Except (PyErr × RemState) (RemediationStats × RemState) := do
  let s1 := { s with tmpWorld := s.tmpWorld.map worldWageUpdate }
  let _ ← logConn s1
  Except.ok ({ emptyStats with
    world_data_fixes :=
      (s.tmpWorld.filter (fun w => w.minimum_wage.isNone && w.gdp.isSome)).length }, s1)

/-- `MAX_RETRIES` of `quality_utils.py`. -/
def MAX_RETRIES : Nat := 8

/-- `execute_with_retry` (quality_utils.py, lines 56-97): run the operation;
a retryable `sqlite3.OperationalError` (locked / busy / I-O / nested
transaction) is retried while attempts remain; any other exception — and a
retryable one on the last attempt — makes the wrapper log and return `None`;
falling out of the loop also returns `None`.  The state paired with an
error is the operation's last committed state (the closure's `finally`
closes the connection, rolling back whatever was uncommitted). -/
def executeWithRetry
    (op : RemState → Except (PyErr × RemState) (RemediationStats × RemState)) :
    Nat → RemState → Except (PyErr × RemState) (Option RemediationStats × RemState)
  | 0, s => Except.ok (none, s)
  | n + 1, s =>
      match op s with
      | Except.ok (st, s') => Except.ok (some st, s')
      | Except.error (e, s') =>
          match e with
          | PyErr.operationalError true =>
              if n = 0 then Except.ok (none, s') else executeWithRetry op n s'
          | _ => Except.ok (none, s')

/-- The `try: return execute_with_retry(...) except Exception: ...; return
stats` shell shared by every remediation operation of
`data_remediation_utils.py`: since `execute_with_retry` catches everything,
the `except` branch is only reachable if the wrapper itself raised, and then
it returns the (partially updated) stats object. -/
def runRemediation
    (op : RemState → Except (PyErr × RemState) (RemediationStats × RemState))
    (onErr : RemediationStats) (s : RemState) :
    Except (PyErr × RemState) (Option RemediationStats × RemState) :=
  match executeWithRetry op MAX_RETRIES s with
  | Except.ok r => Except.ok r
  | Except.error (_, s') => Except.ok (some onErr, s')

/-- `fix_scd2_temporal_logic` (data_remediation_utils.py, lines 127-224). -/
def fix_scd2_temporal_logic (s : RemState) :
    Except (PyErr × RemState) (Option RemediationStats × RemState) :=
  runRemediation fix_scd2_inner emptyStats s

/-- `resolve_missing_regions` (lines 226-329). -/
def resolve_missing_regions (s : RemState) :
    Except (PyErr × RemState) (Option RemediationStats × RemState) :=
  runRemediation resolve_missing_regions_inner emptyStats s

/-- `handle_missing_shipping_data` (lines 331-451). -/
def handle_missing_shipping_data (s : RemState) :
    Except (PyErr × RemState) (Option RemediationStats × RemState) :=
  runRemediation handle_missing_shipping_inner emptyStats s

/-- `advanced_geographic_remediation` (lines 455-658). -/
def advanced_geographic_remediation (s : RemState) :
    Except (PyErr × RemState) (Option RemediationStats × RemState) :=
  runRemediation advanced_geographic_inner emptyStats s

/-- `advanced_contact_data_remediation` (lines 660-796), parameterised by
the random domain choices. -/
def advanced_contact_data_remediation (rnd : Nat → Nat) (s : RemState) :
    Except (PyErr × RemState) (Option RemediationStats × RemState) :=
  runRemediation (advanced_contact_inner rnd) emptyStats s

/-- `world_data_enrichment_remediation` (lines 798-847). -/
def world_data_enrichment_remediation (s : RemState) :
    Except (PyErr × RemState) (Option RemediationStats × RemState) :=
  runRemediation world_data_inner emptyStats s

/-- A call that returns normally (no exception reaches the caller). -/
def returnsNormally {ε α : Type} (r : Except ε α) : Prop :=
  ∃ v, r = Except.ok v

theorem executeWithRetry_ok
    (op : RemState → Except (PyErr × RemState) (RemediationStats × RemState))
    (n : Nat) (s : RemState) :
    returnsNormally (executeWithRetry op n s) := by
  induction n generalizing s with
  | zero => exact ⟨(none, s), rfl⟩
  | succ n ih =>
      unfold executeWithRetry
      cases hop : op s with
      | ok r => exact ⟨(some r.1, r.2), rfl⟩
      | error e =>
          rcases e with ⟨e, s'⟩
          cases e with
          | typeError => exact ⟨(none, s'), rfl⟩
          | attributeError => exact ⟨(none, s'), rfl⟩
          | operationalError retryable =>
              cases retryable with
              | false => exact ⟨(none, s'), rfl⟩
              | true =>
                  by_cases hn : n = 0
                  · exact ⟨(none, s'), by simp [hn]⟩
                  · rcases ih s' with ⟨v, hv⟩
                    exact ⟨v, by simp [hn]; exact hv⟩

theorem runRemediation_ok
    (op : RemState → Except (PyErr × RemState) (RemediationStats × RemState))
    (onErr : RemediationStats) (s : RemState) :
    returnsNormally (runRemediation op onErr s) := by
  unfold runRemediation
  cases h : executeWithRetry op MAX_RETRIES s with
  | ok r => exact ⟨r, rfl⟩
  | error e => exact ⟨(some onErr, e.2), rfl⟩

/-- C10: for every remediation operation and every input database state,
invoking the operation never propagates an exception to its caller: every
internal error is absorbed either by `execute_with_retry`, which catches all
exceptions and returns `None` instead of raising, or by the operation's own
catch-all branch, which returns a stats object — the call always returns
normally. -/
theorem c10_remediation_never_raises (s : RemState) (rnd : Nat → Nat) :
    returnsNormally (fix_scd2_temporal_logic s) ∧
    returnsNormally (resolve_missing_regions s) ∧
    returnsNormally (handle_missing_shipping_data s) ∧
    returnsNormally (advanced_geographic_remediation s) ∧
    returnsNormally (advanced_contact_data_remediation rnd s) ∧
    returnsNormally (world_data_enrichment_remediation s) :=
  ⟨runRemediation_ok fix_scd2_inner emptyStats s,
   runRemediation_ok resolve_missing_regions_inner emptyStats s,
   runRemediation_ok handle_missing_shipping_inner emptyStats s,
   runRemediation_ok advanced_geographic_inner emptyStats s,
   runRemediation_ok (advanced_contact_inner rnd) emptyStats s,
   runRemediation_ok world_data_inner emptyStats s⟩

/-- A dimension row with inverted validity dates: `fecha_inicio_validez =
2024-05-10`, `fecha_fin_validez = 2024-05-01`. -/
def c7row : ClienteRow :=
  { sk := 1, nk := "ALFKI", nombre_compania := some "Alfreds Futterkiste",
    nombre_contacto := none, titulo_contacto := none, direccion := none,
    ciudad := none, region := none, codigo_postal := none, pais := none,
    fecha_inicio := ⟨2024, 5, 10⟩, fecha_fin := some ⟨2024, 5, 1⟩, es_vigente := true }

/-- A database whose customer dimension holds exactly the inverted row. -/
def c7state : RemState :=
  { dimClientes := [c7row], tmp2Customers := [], tmp2Orders := [], tmpCustomers := [],
    tmpSuppliers := [], tmpEmployees := [], tmpOrders := [], tmpWorld := [] }

/-- C7: the temporal-logic remediation does NOT deliver its claimed
postcondition.  On a database holding one row with `valid_from = 2024-05-10 >
valid_to = 2024-05-01` the defect query finds the row and the in-memory fix
would set `valid_to = 2024-05-11` exactly as claimed, but the per-fix metric
call passes the keyword `conn`, which `log_quality_metric` does not accept,
so it raises `TypeError`; the retry wrapper absorbs the exception and returns
`None`, the uncommitted transaction rolls back, and the operation returns
with the database unchanged — the row still has `valid_from > valid_to`. -/
theorem c7_temporal_fix_rolled_back :
    temporalDefects c7state.dimClientes = [c7row] ∧
    c7row.fecha_inicio.nextDay = ⟨2024, 5, 11⟩ ∧
    logQualityMetricCall = Except.error PyErr.typeError ∧
    fix_scd2_temporal_logic c7state = Except.ok (none, c7state) ∧
    temporalDefects c7state.dimClientes ≠ [] :=
  ⟨rfl, rfl, rfl, rfl, fun h => List.cons_ne_nil c7row [] h⟩

/-- A `TMP_customers` row with a NULL region and a directly mappable
country. -/
def c8cust : TmpCustomer :=
  { customer_id := "ALFKI", country := some "Germany", city := some "Berlin",
    region := none, fax := none }

/-- A database whose `TMP_customers` table holds exactly the
region-less row. -/
def c8state : RemState :=
  { dimClientes := [], tmp2Customers := [], tmp2Orders := [], tmpCustomers := [c8cust],
    tmpSuppliers := [], tmpEmployees := [], tmpOrders := [], tmpWorld := [] }

/-- C8: the region-inference pass does NOT deliver its claimed
postcondition.  The cascade itself behaves as described for a non-NULL
country — `Germany` resolves by direct mapping to `Western Europe` — but
(1) the per-fix metric call passes the unsupported keyword `conn`, raising
`TypeError`; the retry wrapper absorbs it and the transaction rolls back, so
on a database holding one region-less customer the operation returns `None`
with the region still NULL (the scanned column does not end with zero
nulls); and (2) for a row whose country is NULL the cascade reaches
`country.upper()` unguarded and raises `AttributeError` before the fallback
label — the fallback can fail. -/
theorem c8_region_inference_rolled_back :
    inferRegionCustomer (some "Germany") none [] =
      Except.ok ("Western Europe", GeoMethod.directMapping) ∧
    inferRegionCustomer none none [] = Except.error PyErr.attributeError ∧
    advanced_geographic_remediation c8state = Except.ok (none, c8state) ∧
    (c8state.tmpCustomers.filter (fun c => isNullOrEmpty c.region)).length = 1 :=
  ⟨rfl, rfl, rfl, rfl⟩

theorem shipFixApply_shipped_date (cs : List Tmp2Customer) (o : Tmp2Order) :
    ((shipFixApply cs o).1).shipped_date = o.shipped_date := by
  unfold shipFixApply
  dsimp only
  split <;> split <;> rfl

theorem shipFixApply_region (cs : List Tmp2Customer) (o : Tmp2Order) :
    ((shipFixApply cs o).1).ship_region =
      (match o.ship_region with
       | some r => some r
       | none => (shipCustomerOf cs o).bind (fun c => c.region)) := by
  unfold shipFixApply
  dsimp only
  split <;> split <;>
    (cases hr : o.ship_region <;>
     cases hc : (shipCustomerOf cs o).bind (fun c => c.region) <;> simp_all)

theorem shipFixApply_postal (cs : List Tmp2Customer) (o : Tmp2Order) :
    ((shipFixApply cs o).1).ship_postal_code =
      (match o.ship_postal_code with
       | some p => some p
       | none => (shipCustomerOf cs o).bind (fun c => c.postal_code)) := by
  unfold shipFixApply
  dsimp only
  split <;> split <;>
    (cases hp : o.ship_postal_code <;>
     cases hc : (shipCustomerOf cs o).bind (fun c => c.postal_code) <;> simp_all)

/-- C9: shipping-attribute inheritance never fabricates a value.  For every
order of the scanned table, the repaired table holds at the same position a
row whose ship date is exactly the original (a missing ship date is only
flagged, never written), and whose ship region / ship postal code is the
original value when present, and otherwise exactly the region / postal code
found on the order's own customer record — in particular it stays NULL
whenever the customer has no such record or its field is NULL too, and no
placeholder is ever substituted. -/
theorem c9_shipping_inheritance (cs : List Tmp2Customer) (os : List Tmp2Order)
    (i : Nat) (o : Tmp2Order) (h : os[i]? = some o) :
    ∃ o', (handle_missing_shipping_core cs os)[i]? = some o' ∧
      o'.shipped_date = o.shipped_date ∧
      o'.ship_region =
        (match o.ship_region with
         | some r => some r
         | none => (shipCustomerOf cs o).bind (fun c => c.region)) ∧
      o'.ship_postal_code =
        (match o.ship_postal_code with
         | some p => some p
         | none => (shipCustomerOf cs o).bind (fun c => c.postal_code)) := by
  refine ⟨if o.ship_region.isNone || o.ship_postal_code.isNone || o.shipped_date.isNone
      then (shipFixApply cs o).1 else o, ?_, ?_, ?_, ?_⟩
  · unfold handle_missing_shipping_core
    rw [List.getElem?_map, h]
    rfl
  · split
    · exact shipFixApply_shipped_date cs o
    · rfl
  · split
    · exact shipFixApply_region cs o
    · rename_i hg
      cases hr : o.ship_region with
      | some r => rfl
      | none => exact absurd (by simp [hr]) hg
  · split
    · exact shipFixApply_postal cs o
    · rename_i hg
      cases hp : o.ship_postal_code with
      | some p => rfl
      | none => exact absurd (by simp [hp]) hg

/-- The customer record of the shipping-inheritance example: a non-NULL
region and a NULL postal code. -/
def c9cust : Tmp2Customer :=
  { customer_id := "ALFKI", company_name := some "Alfreds Futterkiste",
    contact_name := none, contact_title := none, address := none,
    city := some "Berlin", region := some "Brandenburg", postal_code := none,
    country := some "Germany" }

/-- An order of that customer missing its ship region, ship postal code and
ship date all at once. -/
def c9order : Tmp2Order :=
  { order_id := 7001, customer_id := some "ALFKI", employee_id := none,
    order_date := some ⟨2024, 5, 2⟩, shipped_date := none, ship_via := none,
    freight := none, ship_address := none, ship_city := some "Berlin",
    ship_region := none, ship_postal_code := none, ship_country := some "Germany" }

theorem c9_shipping_inheritance_witness :
    ([c9order] : List Tmp2Order)[0]? = some c9order ∧
    ∃ o', (handle_missing_shipping_core [c9cust] [c9order])[0]? = some o' ∧
      o'.shipped_date = c9order.shipped_date ∧
      o'.ship_region =
        (match c9order.ship_region with
         | some r => some r
         | none => (shipCustomerOf [c9cust] c9order).bind (fun c => c.region)) ∧
      o'.ship_postal_code =
        (match c9order.ship_postal_code with
         | some p => some p
         | none => (shipCustomerOf [c9cust] c9order).bind (fun c => c.postal_code)) :=
  ⟨rfl, c9_shipping_inheritance [c9cust] [c9order] 0 c9order rfl⟩
